import Mathlib

/-!
Shallow embedding of the agentman Agentfile parsing subsystem
(`src/agentman/agentfile_parser.py`, `src/agentman/yaml_parser.py`,
`src/agentman/converter.py`) and proofs about the claims of the
natural-language specification.

Conventions of the embedding:
* Python strings are modelled as `List Char` internally, converted to
  `String` at the data-model boundary.
* Python dicts (which preserve insertion order, with assignment to an
  existing key keeping its position) are modelled as association lists
  with an insert-or-update-in-place operation `alInsert`.
* The process environment (`os.environ`) is passed explicitly as a
  function `Env := String → Option String`.
* Python exceptions are modelled with `Except String`.
-/

namespace Agentman

/-- The process environment, read-only (`os.environ.get`). -/
abbrev Env := String → Option String

/-! ### Python string helpers (ASCII fragment used by the sources) -/

/-- Python `str.isspace` for the ASCII characters that can occur here. -/
def pyIsSpace (c : Char) : Bool :=
  c = ' ' || c = '\t' || c = '\n' || c = '\r' || c = '\x0b' || c = '\x0c'

/-- Python `str.lstrip()` (no argument: strips whitespace). -/
def pyLstrip (cs : List Char) : List Char := cs.dropWhile pyIsSpace

/-- Python `str.rstrip()`. -/
def pyRstrip (cs : List Char) : List Char := (cs.reverse.dropWhile pyIsSpace).reverse

/-- Python `str.strip()`. -/
def pyStrip (cs : List Char) : List Char := pyRstrip (pyLstrip cs)

/-- Python `str.strip('[]')`: strip any leading/trailing `[` or `]`. -/
def pyStripBrackets (cs : List Char) : List Char :=
  let isBr := fun c => c = '[' || c = ']'
  ((cs.dropWhile isBr).reverse.dropWhile isBr).reverse

/-- Python `str.upper()` (ASCII). -/
def pyUpper (cs : List Char) : List Char := cs.map Char.toUpper

/-- Python `str.lower()` (ASCII). -/
def pyLower (cs : List Char) : List Char := cs.map Char.toLower

/-- Python `content.split('\n')`: always returns one more piece than
separators; an empty string yields `[[]]`. -/
def splitNL : List Char → List (List Char)
  | [] => [[]]
  | c :: cs =>
    if c = '\n' then [] :: splitNL cs
    else
      match splitNL cs with
      | [] => [[c]]
      | p :: ps => (c :: p) :: ps

/-- Python `'x'.join(parts)`-style join with a single separator char. -/
def joinWith (sep : Char) : List (List Char) → List Char
  | [] => []
  | [p] => p
  | p :: ps => p ++ sep :: joinWith sep ps

/-- `' '.join(parts)` on string lists. -/
def joinSpace (parts : List String) : String :=
  String.mk (joinWith ' ' (parts.map String.data))

/-- Python `line.endswith('\\')` as used on an rstripped line. -/
def endsWithBackslash (cs : List Char) : Bool := cs.getLast? = some '\\'

/-- Python `s.startswith('#')`. -/
def startsWithHash : List Char → Bool
  | [] => false
  | c :: _ => c = '#'

/-- Python `s.split(',')` (split on every comma). -/
def splitComma : List Char → List (List Char)
  | [] => [[]]
  | c :: cs =>
    if c = ',' then [] :: splitComma cs
    else
      match splitComma cs with
      | [] => [[c]]
      | p :: ps => (c :: p) :: ps

/-- Python `int()` on a string: optional surrounding whitespace, optional
sign, then digits where single underscores may separate digits
(Python 3.6+ numeric literals). Returns `none` when `int()` would raise
`ValueError`. -/
def pyIntDigits : List Char → Bool → Option (List Char)
  | [], seenDigit => if seenDigit then some [] else none
  | c :: cs, seenDigit =>
    if c.isDigit then (pyIntDigits cs true).map (c :: ·)
    else if c = '_' then
      -- an underscore must be preceded and followed by a digit
      match cs with
      | c2 :: _ => if seenDigit && c2.isDigit then pyIntDigits cs seenDigit else none
      | [] => none
    else none

/-- Value of a digit string (most significant first). -/
def natOfDigits (cs : List Char) : Nat :=
  cs.foldl (fun acc c => acc * 10 + (c.toNat - '0'.toNat)) 0

/-- Python `int(s)` for a string `s`. -/
def pyInt (s : List Char) : Option Int :=
  let t := pyStrip s
  match t with
  | '-' :: rest => (pyIntDigits rest false).map (fun ds => -(natOfDigits ds : Int))
  | '+' :: rest => (pyIntDigits rest false).map (fun ds => (natOfDigits ds : Int))
  | _ => (pyIntDigits t false).map (fun ds => (natOfDigits ds : Int))

instance {ε α : Type} [DecidableEq ε] [DecidableEq α] : DecidableEq (Except ε α) :=
  fun a b =>
    match a, b with
    | .ok x, .ok y =>
      if h : x = y then isTrue (by rw [h]) else isFalse (by simp [h])
    | .error x, .error y =>
      if h : x = y then isTrue (by rw [h]) else isFalse (by simp [h])
    | .ok _, .error _ => isFalse (by simp)
    | .error _, .ok _ => isFalse (by simp)

/-! ### Ordered dictionaries (Python `dict`) -/

/-- Insert or update, keeping the position of an existing key
(Python `d[k] = v`). -/
def alInsert {α : Type} (m : List (String × α)) (k : String) (v : α) :
    List (String × α) :=
  match m with
  | [] => [(k, v)]
  | (k', v') :: rest => if k' = k then (k, v) :: rest else (k', v') :: alInsert rest k v

/-- Python `k in d`. -/
def alContains {α : Type} (m : List (String × α)) (k : String) : Bool :=
  m.any (fun p => p.1 = k)

/-- Python `d[k]` / `d.get(k)`. -/
def alLookup {α : Type} (m : List (String × α)) (k : String) : Option α :=
  match m with
  | [] => none
  | (k', v) :: rest => if k' = k then some v else alLookup rest k

/-! ### `expand_env_vars` (agentfile_parser.py lines 10-38)

Regex `\$\{([A-Za-z_][A-Za-z0-9_]*)\}|\$([A-Za-z_][A-Za-z0-9_]*)` applied
by `re.sub` left to right, non-overlapping; an unset variable keeps the
original placeholder text (`match.group(0)`). -/

/-- `[A-Za-z_]`. -/
def isNameStart (c : Char) : Bool :=
  ('A' ≤ c && c ≤ 'Z') || ('a' ≤ c && c ≤ 'z') || c = '_'

/-- `[A-Za-z0-9_]`. -/
def isNameChar (c : Char) : Bool := isNameStart c || ('0' ≤ c && c ≤ '9')

/-- Maximal munch of a name `[A-Za-z_][A-Za-z0-9_]*`; `none` when the first
character is not a name start. -/
def scanName (cs : List Char) : Option (List Char × List Char) :=
  match cs with
  | [] => none
  | c :: rest =>
    if isNameStart c then
      let tk := rest.takeWhile isNameChar
      some (c :: tk, rest.dropWhile isNameChar)
    else none

theorem scanName_length {cs name rest : List Char}
    (h : scanName cs = some (name, rest)) : rest.length ≤ cs.length := by
  unfold scanName at h
  match cs with
  | [] => simp at h
  | c :: tl =>
    simp only at h
    split at h
    · simp only [Option.some.injEq, Prod.mk.injEq] at h
      have := h.2
      subst this
      have : (tl.dropWhile isNameChar).length ≤ tl.length :=
        (List.IsSuffix.sublist (List.dropWhile_suffix isNameChar)).length_le
      simp
      omega
    · simp at h

/-- One pass of `re.sub` with the env-var pattern, with `fuel` bounding the
number of consumed characters (used with `fuel = cs.length`, which always
suffices). -/
def expandAux (env : Env) : Nat → List Char → List Char
  | 0, cs => cs
  | _ + 1, [] => []
  | fuel + 1, c :: cs =>
    if c = '$' then
      match cs with
      | c2 :: cs2 =>
        if c2 = '{' then
          -- first alternative: ${NAME}
          match scanName cs2 with
          | some (name, r :: rest) =>
            if r = '}' then
              match env (String.mk name) with
              | some v => v.data ++ expandAux env fuel rest
              | none => '$' :: '{' :: (name ++ '}' :: expandAux env fuel rest)
            else c :: expandAux env fuel cs
          | _ => c :: expandAux env fuel cs
        else
          -- second alternative: bare $NAME
          match scanName cs with
          | some (name, rest) =>
            (match env (String.mk name) with
             | some v => v.data ++ expandAux env fuel rest
             | none => '$' :: (name ++ expandAux env fuel rest))
          | none => c :: expandAux env fuel cs
      | [] => c :: expandAux env fuel cs
    else c :: expandAux env fuel cs

/-- `expand_env_vars` on char lists. -/
def expandChars (env : Env) (cs : List Char) : List Char :=
  expandAux env cs.length cs

/-- `expand_env_vars` (string boundary). -/
def expand_env_vars (env : Env) (s : String) : String :=
  String.mk (expandChars env s.data)

/-! ### Canonical configuration model (agentfile_parser.py dataclasses) -/

/-- A parsed YAML document tree (`yaml.safe_load` output) restricted to the
shapes the Agentfile schema uses: scalars, sequences, and string-keyed
mappings (PyYAML returns insertion-ordered dicts). -/
inductive Yaml where
  | str (s : String)
  | int (n : Int)
  | bool (b : Bool)
  | null
  | list (xs : List Yaml)
  | map (kvs : List (String × Yaml))
deriving Repr

/-- `MCPServer` dataclass. `env` is an insertion-ordered dict. -/
structure MCPServer where
  name : String
  command : Option String := none
  args : List String := []
  transport : String := "stdio"
  url : Option String := none
  env : List (String × String) := []
deriving Repr, DecidableEq

/-- `OutputFormat` dataclass.  The Dockerfile-syntax path stores the result
of `yaml.safe_load` on the inline schema text; the YAML library is external,
so that path keeps the inline schema as its source text in `schemaSrc`,
while the YAML path stores the already-parsed subtree in `schemaDoc`. -/
structure OutputFormat where
  type : String
  schemaSrc : Option String := none
  schemaDoc : Option Yaml := none
  file : Option String := none
deriving Repr

/-- `Agent` dataclass. -/
structure Agent where
  name : String
  instruction : String := "You are a helpful agent."
  servers : List String := []
  model : Option String := none
  use_history : Bool := true
  human_input : Bool := false
  default : Bool := false
  output_format : Option OutputFormat := none
deriving Repr

/-- `Router` dataclass. -/
structure Router where
  name : String
  agents : List String := []
  model : Option String := none
  instruction : Option String := none
  default : Bool := false
deriving Repr, DecidableEq

/-- `Chain` dataclass. -/
structure Chain where
  name : String
  sequence : List String := []
  instruction : Option String := none
  cumulative : Bool := false
  continue_with_final : Bool := true
  default : Bool := false
deriving Repr, DecidableEq

/-- `Orchestrator` dataclass. -/
structure Orchestrator where
  name : String
  agents : List String := []
  model : Option String := none
  instruction : Option String := none
  plan_type : String := "full"
  plan_iterations : Int := 5
  human_input : Bool := false
  default : Bool := false
deriving Repr, DecidableEq

/-- `SecretType = Union[str, SecretValue, SecretContext]`. -/
inductive Secret where
  | ref (name : String)
  | value (name : String) (value : String)
  | context (name : String) (values : List (String × String))
deriving Repr, DecidableEq

/-- `DockerfileInstruction` dataclass. -/
structure DockerfileInstruction where
  instruction : String
  args : List String
deriving Repr, DecidableEq

/-- Minimal `json.dumps` for a list of strings (escapes `\` and `"`; the
remaining JSON escapes concern control characters that do not occur in the
inputs considered here). -/
def jsonEscape (cs : List Char) : List Char :=
  cs.flatMap (fun c =>
    if c = '\\' then ['\\', '\\']
    else if c = '"' then ['\\', '"']
    else [c])

/-- Join with a multi-character separator. -/
def joinSep (sep : List Char) : List (List Char) → List Char
  | [] => []
  | [p] => p
  | p :: ps => p ++ sep ++ joinSep sep ps

def jsonDumps (xs : List String) : String :=
  String.mk ('[' :: joinSep [',', ' ']
    (xs.map (fun s => '"' :: (jsonEscape s.data ++ ['"']))) ++ [']'])

/-- `DockerfileInstruction.to_dockerfile_line`. -/
def DockerfileInstruction.to_dockerfile_line (i : DockerfileInstruction) : String :=
  if (i.instruction = "CMD" || i.instruction = "ENTRYPOINT") && i.args.length > 1 then
    i.instruction ++ " " ++ jsonDumps i.args
  else
    i.instruction ++ " " ++ joinSpace i.args

/-- `AgentfileConfig` dataclass; the mappings are insertion-ordered dicts. -/
structure AgentfileConfig where
  base_image : String := "yeahdongcn/agentman-base:latest"
  default_model : Option String := none
  framework : String := "fast-agent"
  servers : List (String × MCPServer) := []
  agents : List (String × Agent) := []
  routers : List (String × Router) := []
  chains : List (String × Chain) := []
  orchestrators : List (String × Orchestrator) := []
  secrets : List Secret := []
  expose_ports : List Int := []
  cmd : List String := ["python", "agent.py"]
  dockerfile_instructions : List DockerfileInstruction := []
deriving Repr

/-- A fresh `AgentfileConfig()`. -/
def defaultConfig : AgentfileConfig := {}

/-! ### Tokenizer (`_split_respecting_quotes`, `_unquote`) -/

/-- `AgentfileParser._split_respecting_quotes`: whitespace-splitting that
keeps quoted runs (including the quote characters) as single tokens. -/
def splitQuotesAux : List Char → List Char → Option Char → List (List Char)
  | [], current, _ => if current ≠ [] then [current] else []
  | c :: rest, current, none =>
    if c = '"' || c = '\'' then splitQuotesAux rest (current ++ [c]) (some c)
    else if pyIsSpace c then
      if current ≠ [] then current :: splitQuotesAux rest [] none
      else splitQuotesAux rest [] none
    else splitQuotesAux rest (current ++ [c]) none
  | c :: rest, current, some q =>
    if c = q then splitQuotesAux rest (current ++ [c]) none
    else splitQuotesAux rest (current ++ [c]) (some q)

def splitRespectingQuotes (line : List Char) : List (List Char) :=
  splitQuotesAux line [] none

/-- `AgentfileParser._unquote`. -/
def unquote (s : List Char) : List Char :=
  if s.length ≥ 2 then
    match s with
    | c :: rest =>
      if (c = '"' || c = '\'') && rest.getLast? = some c then rest.dropLast else s
    | [] => s
  else s

def unquoteStr (s : List Char) : String := String.mk (unquote s)

/-! ### Line-continuation preprocessor (parse_content lines 360-401) -/

/-- The loop of `parse_content` that merges backslash continuations and
skips blanks/comments, emitting `(first physical line number, logical
line)` pairs.  `total` is `len(lines)`, used for a dangling continuation
at end of input. -/
def processAux (total : Nat) : List (List Char) → Nat → List Char → Option Nat →
    List (Nat × List Char)
  | [], _, current, start =>
    if pyStrip current ≠ [] then [(start.getD total, pyStrip current)] else []
  | l :: rest, n, current, start =>
    let line := pyRstrip l
    if current = [] && (line = [] || startsWithHash (pyLstrip line)) then
      processAux total rest (n + 1) current start
    else if endsWithBackslash line then
      let start' := if current = [] then some n else start
      processAux total rest (n + 1) (current ++ pyRstrip line.dropLast ++ [' ']) start'
    else
      let current' := current ++ line
      if pyStrip current' ≠ [] then
        (start.getD n, pyStrip current') :: processAux total rest (n + 1) [] none
      else
        -- note: `continued_start_line_num` is only reset when a line is
        -- actually emitted
        processAux total rest (n + 1) [] start

/-- The processed logical lines of a content string. -/
def processedLines (content : String) : List (Nat × List Char) :=
  let lines := splitNL content.data
  processAux lines.length lines 1 [] none

/-! ### Dockerfile-syntax parser state machine -/

/-- `self.current_context` values. -/
inductive Ctx where
  | server | agent | router | chain | orchestrator | secret
deriving Repr, DecidableEq

/-- The parser's mutable state: `self.config`, `self.current_context`,
`self.current_item`. -/
structure PState where
  config : AgentfileConfig := {}
  current_context : Option Ctx := none
  current_item : Option String := none
deriving Repr

/-- `value.lower() in ['true', '1', 'yes']` after unquoting. -/
def pyBool (tok : List Char) : Bool :=
  let v := String.mk (pyLower (unquote tok))
  v = "true" || v = "1" || v = "yes"

/-- `_handle_from`. -/
def handleFrom (st : PState) (parts : List (List Char)) : Except String PState :=
  match parts with
  | _ :: p1 :: _ =>
    .ok { st with config := { st.config with base_image := unquoteStr p1 },
                  current_context := none }
  | _ => .error "FROM requires a base image"

/-- `_handle_model`. -/
def handleModel (st : PState) (parts : List (List Char)) : Except String PState :=
  match parts with
  | _ :: p1 :: _ =>
    .ok { st with config := { st.config with default_model := some (unquoteStr p1) },
                  current_context := none }
  | _ => .error "MODEL requires a model name"

/-- `_handle_framework`. -/
def handleFramework (st : PState) (parts : List (List Char)) : Except String PState :=
  match parts with
  | _ :: p1 :: _ =>
    let fw := String.mk (pyLower (unquote p1))
    if fw = "fast-agent" || fw = "agno" then
      .ok { st with config := { st.config with framework := fw }, current_context := none }
    else
      .error ("Unsupported framework: " ++ fw ++ ". Supported: fast-agent, agno")
  | _ => .error "FRAMEWORK requires a framework name"

/-- `_handle_server` (also used for `MCP_SERVER`). -/
def handleServer (st : PState) (parts : List (List Char)) : Except String PState :=
  match parts with
  | _ :: p1 :: _ =>
    let name := unquoteStr p1
    .ok { config := { st.config with
                      servers := alInsert st.config.servers name { name := name } },
          current_context := some .server, current_item := some name }
  | _ => .error "SERVER requires a server name"

/-- `_handle_agent`. -/
def handleAgent (st : PState) (parts : List (List Char)) : Except String PState :=
  match parts with
  | _ :: p1 :: _ =>
    let name := unquoteStr p1
    .ok { config := { st.config with
                      agents := alInsert st.config.agents name { name := name } },
          current_context := some .agent, current_item := some name }
  | _ => .error "AGENT requires an agent name"

/-- `_handle_router`. -/
def handleRouter (st : PState) (parts : List (List Char)) : Except String PState :=
  match parts with
  | _ :: p1 :: _ =>
    let name := unquoteStr p1
    .ok { config := { st.config with
                      routers := alInsert st.config.routers name { name := name } },
          current_context := some .router, current_item := some name }
  | _ => .error "ROUTER requires a router name"

/-- `_handle_chain`. -/
def handleChain (st : PState) (parts : List (List Char)) : Except String PState :=
  match parts with
  | _ :: p1 :: _ =>
    let name := unquoteStr p1
    .ok { config := { st.config with
                      chains := alInsert st.config.chains name { name := name } },
          current_context := some .chain, current_item := some name }
  | _ => .error "CHAIN requires a chain name"

/-- `_handle_orchestrator`. -/
def handleOrchestrator (st : PState) (parts : List (List Char)) : Except String PState :=
  match parts with
  | _ :: p1 :: _ =>
    let name := unquoteStr p1
    .ok { config := { st.config with
                      orchestrators := alInsert st.config.orchestrators name { name := name } },
          current_context := some .orchestrator, current_item := some name }
  | _ => .error "ORCHESTRATOR requires an orchestrator name"

/-- Is there a `SecretContext` named `name` in the secrets list?
(the generator expression in `_handle_secret`). -/
def hasSecretContext (secrets : List Secret) (name : String) : Bool :=
  secrets.any (fun s => match s with
    | .context nm _ => nm = name
    | _ => false)

/-- `_handle_secret`. -/
def handleSecret (env : Env) (st : PState) (parts : List (List Char)) :
    Except String PState :=
  match parts with
  | _ :: p1 :: rest =>
    let secret_name := unquoteStr p1
    if rest ≠ [] then
      -- SECRET NAME value...  (inline value, context reset)
      let value := joinWith ' ' rest
      let expanded := expand_env_vars env (String.mk (unquote value))
      .ok { st with
            config := { st.config with
                        secrets := st.config.secrets ++ [.value secret_name expanded] },
            current_context := none }
    else
      if hasSecretContext st.config.secrets secret_name then
        .ok { st with current_context := some .secret, current_item := some secret_name }
      else
        .ok { config := { st.config with
                          secrets := st.config.secrets ++ [.context secret_name []] },
              current_context := some .secret, current_item := some secret_name }
  | _ => .error "SECRET requires a secret name"

/-- `_handle_expose`. -/
def handleExpose (st : PState) (parts : List (List Char)) : Except String PState :=
  match parts with
  | _ :: p1 :: _ =>
    match pyInt p1 with
    | some port =>
      let ports := st.config.expose_ports
      .ok { st with
            config := { st.config with
                        expose_ports := if port ∈ ports then ports else ports ++ [port] },
            current_context := none }
    | none => .error ("Invalid port number: " ++ String.mk p1)
  | _ => .error "EXPOSE requires a port number"

/-- `_handle_cmd`. -/
def handleCmd (st : PState) (parts : List (List Char)) : Except String PState :=
  match parts with
  | _ :: p1 :: _ =>
    let argParts := parts.tail
    let cmd :=
      if p1.head? = some '[' && (parts.getLast? >>= List.getLast?) = some ']' then
        -- array format: join, strip outer brackets, split on commas
        let cmdStr := pyStripBrackets (joinWith ' ' argParts)
        (splitComma cmdStr).map (fun item => unquoteStr (pyStrip item))
      else
        argParts.map unquoteStr
    .ok { st with config := { st.config with cmd := cmd }, current_context := none }
  | _ => .error "CMD requires at least one argument"

/-- `_handle_dockerfile_instruction` (the ENV `KEY=VALUE` special case in
the source assigns the same `parts[1:]` in both branches, so the handler
stores `parts[1:]` verbatim in every case). -/
def handleDockerfileInstruction (st : PState) (instruction : String)
    (parts : List (List Char)) : Except String PState :=
  match parts with
  | _ :: _ :: _ =>
    .ok { st with
          config := { st.config with
                      dockerfile_instructions := st.config.dockerfile_instructions ++
                        [{ instruction := instruction,
                           args := parts.tail.map String.mk }] },
          current_context := none }
  | _ => .error (instruction ++ " requires arguments")

/-- Split `KEY=VALUE` on the first `=` (`str.split('=', 1)`); `none` if no
`=` occurs. -/
def splitFirstEq : List Char → Option (List Char × List Char)
  | [] => none
  | c :: cs =>
    if c = '=' then some ([], cs)
    else (splitFirstEq cs).map (fun p => (c :: p.1, p.2))

/-- `_handle_server_sub_instruction`.  Instructions that match no branch
fall through silently (the Python `if`/`elif` chain has no `else`). -/
def handleServerSub (env : Env) (st : PState) (inst : String)
    (parts : List (List Char)) : Except String PState :=
  match st.current_item with
  | none => .error "KeyError: None"
  | some item =>
    match alLookup st.config.servers item with
    | none => .error ("KeyError: " ++ item)
    | some server =>
      let store := fun (s : MCPServer) =>
        Except.ok { st with config := { st.config with
                                        servers := alInsert st.config.servers item s } }
      if inst = "COMMAND" then
        match parts with
        | _ :: p1 :: _ => store { server with command := some (unquoteStr p1) }
        | _ => .error "COMMAND requires a command"
      else if inst = "ARGS" then
        match parts with
        | _ :: _ :: _ => store { server with args := parts.tail.map unquoteStr }
        | _ => .error "ARGS requires at least one argument"
      else if inst = "TRANSPORT" then
        match parts with
        | _ :: p1 :: _ =>
          let transport := unquoteStr p1
          if transport = "stdio" || transport = "sse" || transport = "http" then
            store { server with transport := transport }
          else .error ("Invalid transport type: " ++ transport)
        | _ => .error "TRANSPORT requires a transport type"
      else if inst = "URL" then
        match parts with
        | _ :: p1 :: _ => store { server with url := some (unquoteStr p1) }
        | _ => .error "URL requires a URL"
      else if inst = "ENV" then
        match parts with
        | [_, p1] =>
          match splitFirstEq p1 with
          | some (k, v) =>
            let key := unquoteStr k
            let value := expand_env_vars env (unquoteStr v)
            store { server with env := alInsert server.env key value }
          | none => .error "ENV requires KEY VALUE or KEY=VALUE"
        | _ :: p1 :: p2 :: rest =>
          let key := unquoteStr p1
          let value := expand_env_vars env (String.mk (unquote (joinWith ' ' (p2 :: rest))))
          store { server with env := alInsert server.env key value }
        | _ => .error "ENV requires KEY VALUE or KEY=VALUE"
      else .ok st

/-- The field update applied by `_handle_agent_sub_instruction` to the
agent being populated (the Python code mutates the looked-up agent in
place; instructions matching no branch fall through silently).  The inline
`json_schema` branch calls `yaml.safe_load` on the schema text; the YAML
library being external, it is treated as total here and the schema text is
stored verbatim. -/
def agentSubUpdate (agent : Agent) (inst : String) (parts : List (List Char)) :
    Except String Agent :=
  if inst = "INSTRUCTION" then
    match parts with
    | _ :: _ :: _ =>
      .ok { agent with instruction := String.mk (unquote (joinWith ' ' parts.tail)) }
    | _ => .error "INSTRUCTION requires instruction text"
  else if inst = "SERVERS" then
    match parts with
    | _ :: _ :: _ => .ok { agent with servers := parts.tail.map unquoteStr }
    | _ => .error "SERVERS requires at least one server name"
  else if inst = "MODEL" then
    match parts with
    | _ :: p1 :: _ => .ok { agent with model := some (unquoteStr p1) }
    | _ => .error "MODEL requires a model name"
  else if inst = "USE_HISTORY" then
    match parts with
    | _ :: p1 :: _ => .ok { agent with use_history := pyBool p1 }
    | _ => .error "USE_HISTORY requires true/false"
  else if inst = "HUMAN_INPUT" then
    match parts with
    | _ :: p1 :: _ => .ok { agent with human_input := pyBool p1 }
    | _ => .error "HUMAN_INPUT requires true/false"
  else if inst = "DEFAULT" then
    match parts with
    | _ :: p1 :: _ => .ok { agent with default := pyBool p1 }
    | _ => .error "DEFAULT requires true/false"
  else if inst = "OUTPUT_FORMAT" then
    match parts with
    | _ :: p1 :: rest =>
      let format_type := unquoteStr p1
      if format_type = "json_schema" then
        match rest with
        | [] => .error "OUTPUT_FORMAT json_schema requires a schema definition or file reference"
        | _ =>
          let schema_value := String.mk (unquote (joinWith ' ' rest))
          .ok { agent with
                output_format := some { type := "json_schema",
                                        schemaSrc := some schema_value } }
      else if format_type = "schema_file" then
        match rest with
        | [] => .error "OUTPUT_FORMAT schema_file requires a file path"
        | p2 :: _ =>
          let file_path := unquote p2
          if [".json".data, ".yaml".data, ".yml".data].any
              (fun suf => suf.isSuffixOf file_path) then
            .ok { agent with
                  output_format := some { type := "schema_file",
                                          file := some (String.mk file_path) } }
          else .error "OUTPUT_FORMAT schema_file must reference a .json, .yaml, or .yml file"
      else
        .error ("Invalid OUTPUT_FORMAT type: " ++ format_type ++
          ". Supported: json_schema, schema_file")
    | _ => .error "OUTPUT_FORMAT requires a format type"
  else .ok agent

/-- `_handle_agent_sub_instruction`: look up the current agent, apply the
field update, and store it back. -/
def handleAgentSub (st : PState) (inst : String) (parts : List (List Char)) :
    Except String PState :=
  match st.current_item with
  | none => .error "KeyError: None"
  | some item =>
    match alLookup st.config.agents item with
    | none => .error ("KeyError: " ++ item)
    | some agent =>
      (agentSubUpdate agent inst parts).map
        (fun a => { st with config := { st.config with
                                        agents := alInsert st.config.agents item a } })

/-- `_handle_router_sub_instruction`. -/
def handleRouterSub (st : PState) (inst : String) (parts : List (List Char)) :
    Except String PState :=
  match st.current_item with
  | none => .error "KeyError: None"
  | some item =>
    match alLookup st.config.routers item with
    | none => .error ("KeyError: " ++ item)
    | some router =>
      let store := fun (r : Router) =>
        Except.ok { st with config := { st.config with
                                        routers := alInsert st.config.routers item r } }
      if inst = "AGENTS" then
        match parts with
        | _ :: _ :: _ => store { router with agents := parts.tail.map unquoteStr }
        | _ => .error "AGENTS requires at least one agent name"
      else if inst = "MODEL" then
        match parts with
        | _ :: p1 :: _ => store { router with model := some (unquoteStr p1) }
        | _ => .error "MODEL requires a model name"
      else if inst = "INSTRUCTION" then
        match parts with
        | _ :: _ :: _ =>
          store { router with instruction := some (String.mk (unquote (joinWith ' ' parts.tail))) }
        | _ => .error "INSTRUCTION requires instruction text"
      else if inst = "DEFAULT" then
        match parts with
        | _ :: p1 :: _ => store { router with default := pyBool p1 }
        | _ => .error "DEFAULT requires true/false"
      else .ok st

/-- `_handle_chain_sub_instruction`. -/
def handleChainSub (st : PState) (inst : String) (parts : List (List Char)) :
    Except String PState :=
  match st.current_item with
  | none => .error "KeyError: None"
  | some item =>
    match alLookup st.config.chains item with
    | none => .error ("KeyError: " ++ item)
    | some chain =>
      let store := fun (c : Chain) =>
        Except.ok { st with config := { st.config with
                                        chains := alInsert st.config.chains item c } }
      if inst = "SEQUENCE" then
        match parts with
        | _ :: _ :: _ => store { chain with sequence := parts.tail.map unquoteStr }
        | _ => .error "SEQUENCE requires at least one agent name"
      else if inst = "INSTRUCTION" then
        match parts with
        | _ :: _ :: _ =>
          store { chain with instruction := some (String.mk (unquote (joinWith ' ' parts.tail))) }
        | _ => .error "INSTRUCTION requires instruction text"
      else if inst = "CUMULATIVE" then
        match parts with
        | _ :: p1 :: _ => store { chain with cumulative := pyBool p1 }
        | _ => .error "CUMULATIVE requires true/false"
      else if inst = "CONTINUE_WITH_FINAL" then
        match parts with
        | _ :: p1 :: _ => store { chain with continue_with_final := pyBool p1 }
        | _ => .error "CONTINUE_WITH_FINAL requires true/false"
      else if inst = "DEFAULT" then
        match parts with
        | _ :: p1 :: _ => store { chain with default := pyBool p1 }
        | _ => .error "DEFAULT requires true/false"
      else .ok st

/-- `_handle_orchestrator_sub_instruction`. -/
def handleOrchestratorSub (st : PState) (inst : String) (parts : List (List Char)) :
    Except String PState :=
  match st.current_item with
  | none => .error "KeyError: None"
  | some item =>
    match alLookup st.config.orchestrators item with
    | none => .error ("KeyError: " ++ item)
    | some orch =>
      let store := fun (o : Orchestrator) =>
        Except.ok { st with config := { st.config with
                                        orchestrators := alInsert st.config.orchestrators item o } }
      if inst = "AGENTS" then
        match parts with
        | _ :: _ :: _ => store { orch with agents := parts.tail.map unquoteStr }
        | _ => .error "AGENTS requires at least one agent name"
      else if inst = "MODEL" then
        match parts with
        | _ :: p1 :: _ => store { orch with model := some (unquoteStr p1) }
        | _ => .error "MODEL requires a model name"
      else if inst = "INSTRUCTION" then
        match parts with
        | _ :: _ :: _ =>
          store { orch with instruction := some (String.mk (unquote (joinWith ' ' parts.tail))) }
        | _ => .error "INSTRUCTION requires instruction text"
      else if inst = "PLAN_TYPE" then
        match parts with
        | _ :: p1 :: _ =>
          let plan_type := unquoteStr p1
          if plan_type = "full" || plan_type = "iterative" then
            store { orch with plan_type := plan_type }
          else .error ("Invalid plan type: " ++ plan_type)
        | _ => .error "PLAN_TYPE requires a plan type"
      else if inst = "PLAN_ITERATIONS" then
        match parts with
        | _ :: p1 :: _ =>
          match pyInt p1 with
          | some n => store { orch with plan_iterations := n }
          | none => .error ("Invalid number for PLAN_ITERATIONS: " ++ String.mk p1)
        | _ => .error "PLAN_ITERATIONS requires a number"
      else if inst = "HUMAN_INPUT" then
        match parts with
        | _ :: p1 :: _ => store { orch with human_input := pyBool p1 }
        | _ => .error "HUMAN_INPUT requires true/false"
      else if inst = "DEFAULT" then
        match parts with
        | _ :: p1 :: _ => store { orch with default := pyBool p1 }
        | _ => .error "DEFAULT requires true/false"
      else .ok st

/-- Update the first `SecretContext` named `name` (the find-then-mutate loop
of `_handle_secret_sub_instruction`); `none` when no such context exists. -/
def updateSecretContext (secrets : List Secret) (name key value : String) :
    Option (List Secret) :=
  match secrets with
  | [] => none
  | .context nm vals :: rest =>
    if nm = name then some (.context nm (alInsert vals key value) :: rest)
    else (updateSecretContext rest name key value).map (.context nm vals :: ·)
  | s :: rest => (updateSecretContext rest name key value).map (s :: ·)

/-- `_handle_secret_sub_instruction`.  `if not self.current_item` is a
Python truthiness test, so an empty-string item also fails it. -/
def handleSecretSub (env : Env) (st : PState) (inst : String)
    (parts : List (List Char)) : Except String PState :=
  match st.current_item with
  | none => .error "SECRET sub-instruction without active secret context"
  | some item =>
    if item = "" then .error "SECRET sub-instruction without active secret context"
    else if hasSecretContext st.config.secrets item then
      match parts with
      | _ :: p1 :: rest =>
        let key := String.mk (pyUpper inst.data)
        let value := joinWith ' ' (p1 :: rest)
        let expanded := expand_env_vars env (String.mk (unquote value))
        match updateSecretContext st.config.secrets item key expanded with
        | some secrets' => .ok { st with config := { st.config with secrets := secrets' } }
        | none => .error ("Secret context " ++ item ++ " not found")
      | _ => .error "SECRET context requires KEY VALUE format"
    else .error ("Secret context " ++ item ++ " not found")

/-- `_handle_sub_instruction`, including the dangling-secret recovery path. -/
def handleSub (env : Env) (st : PState) (inst : String) (parts : List (List Char)) :
    Except String PState :=
  match st.current_context with
  | none =>
    match st.current_item with
    | some item =>
      if item ≠ "" && hasSecretContext st.config.secrets item then
        handleSecretSub env { st with current_context := some .secret } inst parts
      else
        .error (inst ++ " can only be used within a context (SERVER, AGENT, etc.)")
    | none =>
      .error (inst ++ " can only be used within a context (SERVER, AGENT, etc.)")
  | some .server => handleServerSub env st inst parts
  | some .agent => handleAgentSub st inst parts
  | some .router => handleRouterSub st inst parts
  | some .chain => handleChainSub st inst parts
  | some .orchestrator => handleOrchestratorSub st inst parts
  | some .secret => handleSecretSub env st inst parts

/-- The dispatch of `_parse_line` on the uppercased first token (one arm
per `if`/`elif` branch of the source; the keyword sets of the branches are
disjoint, so the textual order is preserved by a single match). -/
def parseLineDispatch (env : Env) (st : PState) (inst : String)
    (parts : List (List Char)) : Except String PState :=
  match inst with
  | "MODEL" =>
    if st.current_context = some .agent then handleSub env st inst parts
    else handleModel st parts
  | "FRAMEWORK" => handleFramework st parts
  | "SERVER" | "MCP_SERVER" => handleServer st parts
  | "AGENT" => handleAgent st parts
  | "ROUTER" => handleRouter st parts
  | "CHAIN" => handleChain st parts
  | "ORCHESTRATOR" => handleOrchestrator st parts
  | "SECRET" => handleSecret env st parts
  | "FROM" =>
    match handleFrom st parts with
    | .ok st' => handleDockerfileInstruction st' inst parts
    | .error e => .error e
  | "EXPOSE" =>
    match handleExpose st parts with
    | .ok st' => handleDockerfileInstruction st' inst parts
    | .error e => .error e
  | "CMD" =>
    match handleCmd st parts with
    | .ok st' =>
      .ok { st' with config := { st'.config with
              dockerfile_instructions := st'.config.dockerfile_instructions ++
                [{ instruction := "CMD", args := st'.config.cmd }] } }
    | .error e => .error e
  | "RUN" => handleDockerfileInstruction st inst parts
  -- standard Dockerfile and BuildKit instructions, stored as-is
  | "ARG" | "ADD" | "COPY" | "ENTRYPOINT" | "HEALTHCHECK" | "LABEL"
  | "MAINTAINER" | "ONBUILD" | "SHELL" | "STOPSIGNAL" | "USER" | "VOLUME"
  | "WORKDIR" | "MOUNT" | "BUILDKIT" => handleDockerfileInstruction st inst parts
  -- sub-instructions for contexts
  | "COMMAND" | "ARGS" | "INSTRUCTION" | "SERVERS" | "AGENTS" | "SEQUENCE"
  | "TRANSPORT" | "URL" | "USE_HISTORY" | "HUMAN_INPUT" | "PLAN_TYPE"
  | "PLAN_ITERATIONS" | "CUMULATIVE" | "API_KEY" | "BASE_URL" | "DEFAULT"
  | "OUTPUT_FORMAT" => handleSub env st inst parts
  -- ENV: sub-instruction inside a server context, Dockerfile instruction otherwise
  | "ENV" =>
    if st.current_context = some .server then handleSub env st inst parts
    else handleDockerfileInstruction st inst parts
  -- unknown instruction: treated as a Dockerfile instruction for forward
  -- compatibility
  | _ => handleDockerfileInstruction st inst parts

/-- `_parse_line`: tokenize, uppercase the first token, dispatch. -/
def parseLine (env : Env) (st : PState) (line : List Char) : Except String PState :=
  match splitRespectingQuotes line with
  | [] => .ok st
  | p0 :: rest => parseLineDispatch env st (String.mk (pyUpper p0)) (p0 :: rest)

/-- One numbered logical line of `parse_content`'s main loop: run
`_parse_line` and wrap any failure with the line number and offending
text. -/
def parseLineNumbered (env : Env) (st : PState) (p : Nat × List Char) :
    Except String PState :=
  match parseLine env st p.2 with
  | .ok st' => .ok st'
  | .error e =>
    .error ("Error parsing line " ++ toString p.1 ++ ": " ++ String.mk p.2 ++
      "\n" ++ e)

/-- `parse_content`: preprocess into logical lines, then run `_parse_line`
over each. -/
def parseContentSt (env : Env) (content : String) : Except String PState :=
  (processedLines content).foldlM (parseLineNumbered env) {}

/-- `AgentfileParser().parse_content(content)`: the returned configuration. -/
def parseContent (env : Env) (content : String) : Except String AgentfileConfig :=
  (parseContentSt env content).map (·.config)

/-! ### Dockerfile-syntax serializer
(`converter.config_to_dockerfile_content`, lines 189-320) -/

/-- Python truthiness of an optional string field (`if config.default_model:`
is false for both `None` and `""`). -/
def optStrTruthy : Option String → Bool
  | some s => s ≠ ""
  | none => false

def Secret.toLines : Secret → List String
  | .ref n => ["SECRET " ++ n]
  | .value n v => ["SECRET " ++ n ++ " " ++ v]
  | .context n vals => ("SECRET " ++ n) :: vals.map (fun p => p.1 ++ " " ++ p.2)

def MCPServer.toLines (server : MCPServer) : List String :=
  ["MCP_SERVER " ++ server.name] ++
  (if optStrTruthy server.command then ["COMMAND " ++ server.command.getD ""] else []) ++
  (if server.args ≠ [] then ["ARGS " ++ joinSpace server.args] else []) ++
  (if server.transport ≠ "stdio" then ["TRANSPORT " ++ server.transport] else []) ++
  (if optStrTruthy server.url then ["URL " ++ server.url.getD ""] else []) ++
  server.env.map (fun p => "ENV " ++ p.1 ++ " " ++ p.2) ++
  [""]

def Agent.toLines (agent : Agent) : List String :=
  ["AGENT " ++ agent.name] ++
  (if agent.instruction ≠ "You are a helpful agent." then
    ["INSTRUCTION " ++ agent.instruction] else []) ++
  (if agent.servers ≠ [] then ["SERVERS " ++ joinSpace agent.servers] else []) ++
  (if optStrTruthy agent.model then ["MODEL " ++ agent.model.getD ""] else []) ++
  (if !agent.use_history then ["USE_HISTORY false"] else []) ++
  (if agent.human_input then ["HUMAN_INPUT true"] else []) ++
  (if agent.default then ["DEFAULT true"] else []) ++
  [""]

def Router.toLines (router : Router) : List String :=
  ["ROUTER " ++ router.name] ++
  (if router.agents ≠ [] then ["AGENTS " ++ joinSpace router.agents] else []) ++
  (if optStrTruthy router.model then ["MODEL " ++ router.model.getD ""] else []) ++
  (if optStrTruthy router.instruction then ["INSTRUCTION " ++ router.instruction.getD ""] else []) ++
  (if router.default then ["DEFAULT true"] else []) ++
  [""]

def Chain.toLines (chain : Chain) : List String :=
  ["CHAIN " ++ chain.name] ++
  (if chain.sequence ≠ [] then ["SEQUENCE " ++ joinSpace chain.sequence] else []) ++
  (if optStrTruthy chain.instruction then ["INSTRUCTION " ++ chain.instruction.getD ""] else []) ++
  (if chain.cumulative then ["CUMULATIVE true"] else []) ++
  (if !chain.continue_with_final then ["CONTINUE_WITH_FINAL false"] else []) ++
  (if chain.default then ["DEFAULT true"] else []) ++
  [""]

def Orchestrator.toLines (orch : Orchestrator) : List String :=
  ["ORCHESTRATOR " ++ orch.name] ++
  (if orch.agents ≠ [] then ["AGENTS " ++ joinSpace orch.agents] else []) ++
  (if optStrTruthy orch.model then ["MODEL " ++ orch.model.getD ""] else []) ++
  (if optStrTruthy orch.instruction then ["INSTRUCTION " ++ orch.instruction.getD ""] else []) ++
  (if orch.plan_type ≠ "full" then ["PLAN_TYPE " ++ orch.plan_type] else []) ++
  (if orch.plan_iterations ≠ 5 then ["PLAN_ITERATIONS " ++ toString orch.plan_iterations] else []) ++
  (if orch.human_input then ["HUMAN_INPUT true"] else []) ++
  (if orch.default then ["DEFAULT true"] else []) ++
  [""]

/-- The `lines` list assembled by `config_to_dockerfile_content`. -/
def buildDockerfileLines (config : AgentfileConfig) : List String :=
  ["FROM " ++ config.base_image] ++
  (if config.framework ≠ "fast-agent" then ["FRAMEWORK " ++ config.framework] else []) ++
  (if optStrTruthy config.default_model then
    ["MODEL " ++ config.default_model.getD ""] else []) ++
  [""] ++
  config.secrets.flatMap Secret.toLines ++
  (if config.secrets ≠ [] then [""] else []) ++
  config.servers.flatMap (fun p => p.2.toLines) ++
  config.agents.flatMap (fun p => p.2.toLines) ++
  config.routers.flatMap (fun p => p.2.toLines) ++
  config.chains.flatMap (fun p => p.2.toLines) ++
  config.orchestrators.flatMap (fun p => p.2.toLines) ++
  -- generic Dockerfile instructions replayed, FROM and CMD filtered out
  ((config.dockerfile_instructions.filter
      (fun i => i.instruction ≠ "FROM" && i.instruction ≠ "CMD")).map
    DockerfileInstruction.to_dockerfile_line) ++
  config.expose_ports.map (fun port => "EXPOSE " ++ toString port) ++
  (if config.cmd ≠ ["python", "agent.py"] then
    (if config.cmd.length = 1 then ["CMD " ++ config.cmd.headI]
     else ["CMD " ++ jsonDumps config.cmd])
   else [])

/-- `config_to_dockerfile_content`: `"\n".join(lines) + "\n"`. -/
def config_to_dockerfile_content (config : AgentfileConfig) : String :=
  String.mk (joinWith '\n' ((buildDockerfileLines config).map String.data) ++ ['\n'])

/-! ### Validator (`converter.validate_agentfile`, lines 363-396)

`validate_agentfile` parses a file and then performs the three structural
checks below on the configuration, printing the first failure and returning
`False`; the configuration-level checks are modelled here. -/

/-- First agent (in insertion order) whose `servers` list references an
undefined server, with the failure message. -/
def firstDanglingServer (servers : List (String × MCPServer)) :
    List (String × Agent) → Option String
  | [] => none
  | (_, agent) :: rest =>
    match agent.servers.find? (fun s => !alContains servers s) with
    | some server_name =>
      some ("Agent '" ++ agent.name ++ "' references undefined server '" ++
        server_name ++ "'")
    | none => firstDanglingServer servers rest

/-- The first validation failure message of `validate_agentfile` on a parsed
configuration (`none` means valid). -/
def validationMessage (config : AgentfileConfig) : Option String :=
  if config.base_image = "" then some "Missing base image"
  else if config.agents.isEmpty then some "No agents defined"
  else firstDanglingServer config.servers config.agents

/-- The boolean verdict of `validate_agentfile` on a parsed configuration. -/
def validateConfig (config : AgentfileConfig) : Bool :=
  (validationMessage config).isNone

/-! ### YAML-syntax parser (`yaml_parser.AgentfileYamlParser.parse_content`)

The parser operates on the tree returned by `yaml.safe_load` (the YAML
library is external).  Where the Python code would carry arbitrary objects
into string-typed configuration fields, the model requires string scalars
and fails on other shapes; likewise a section of entirely the wrong shape
(over which Python would iterate or test membership object-generically) is
a model error.  Neither restriction is exercised by the schema's documented
shapes. -/

/-- Python truthiness of a YAML node (`if not data`, `bool(x)`). -/
def Yaml.falsy : Yaml → Bool
  | .str s => s = ""
  | .int n => n = 0
  | .bool b => !b
  | .null => true
  | .list xs => xs.isEmpty
  | .map kvs => kvs.isEmpty

/-- Python `==` between a YAML scalar and a string. -/
def yamlEqStr (y : Yaml) (s : String) : Bool :=
  match y with
  | .str t => t = s
  | _ => false

/-- Python `str(obj)` for scalars as interpolated into error messages
(container rendering is abbreviated; no claim depends on it). -/
def yamlPyStr : Yaml → String
  | .str s => s
  | .int n => toString n
  | .bool b => if b then "True" else "False"
  | .null => "None"
  | .list _ => "[...]"
  | .map _ => "\x7b...\x7d"

/-- `data.get(key, default)`. -/
def yGetD (kvs : List (String × Yaml)) (k : String) (d : Yaml) : Yaml :=
  (alLookup kvs k).getD d

/-- A YAML list whose elements are all string scalars. -/
def yamlStrList (xs : List Yaml) : Option (List String) :=
  xs.mapM (fun y => match y with | .str s => some s | _ => none)

/-- A YAML mapping whose values are all string scalars. -/
def yamlStrMap (kvs : List (String × Yaml)) : Option (List (String × String)) :=
  kvs.mapM (fun p => match p.2 with | .str s => some (p.1, s) | _ => none)

/-- `_parse_base`. -/
def parseBaseSection (cfg : AgentfileConfig) (b : Yaml) :
    Except String AgentfileConfig :=
  match b with
  | .map kvs =>
    (match alLookup kvs "image" with
     | some (.str s) => .ok { cfg with base_image := s }
     | some _ => .error "TypeError: base 'image' must be a string"
     | none => .ok cfg) >>= fun cfg =>
    (match alLookup kvs "model" with
     | some (.str s) => .ok { cfg with default_model := some s }
     | some _ => .error "TypeError: base 'model' must be a string"
     | none => .ok cfg) >>= fun cfg =>
    (match alLookup kvs "framework" with
     | some (.str s) =>
       let fw := String.mk (pyLower s.data)
       if fw = "fast-agent" || fw = "agno" then .ok { cfg with framework := fw }
       else .error ("Unsupported framework: " ++ fw ++ ". Supported: fast-agent, agno")
     | some _ => .error "AttributeError: base 'framework' must be a string"
     | none => .ok cfg)
  | _ => .error "TypeError: 'base' section must be a mapping"

/-- `_parse_mcp_servers`, one server object. -/
def parseServerItem (env : Env) (cfg : AgentfileConfig) (item : Yaml) :
    Except String AgentfileConfig :=
  match item with
  | .map kvs =>
    (match alLookup kvs "name" with
     | some (.str name) => .ok name
     | some _ => .error "TypeError: MCP server 'name' must be a string"
     | none => .error "MCP server must have a 'name' field") >>= fun name =>
    (match alLookup kvs "command" with
     | some (.str s) => .ok (some s)
     | some _ => .error "TypeError: MCP server 'command' must be a string"
     | none => .ok none) >>= fun command =>
    (match alLookup kvs "args" with
     | some (.list xs) =>
       match yamlStrList xs with
       | some args => .ok args
       | none => .error "TypeError: MCP server 'args' elements must be strings"
     | some _ => .error "MCP server 'args' must be a list"
     | none => .ok []) >>= fun args =>
    (match alLookup kvs "transport" with
     | some t =>
       if yamlEqStr t "stdio" || yamlEqStr t "sse" || yamlEqStr t "http" then
         .ok (yamlPyStr t)
       else .error ("Invalid transport type: " ++ yamlPyStr t)
     | none => .ok "stdio") >>= fun transport =>
    (match alLookup kvs "url" with
     | some (.str s) => .ok (some s)
     | some _ => .error "TypeError: MCP server 'url' must be a string"
     | none => .ok none) >>= fun url =>
    (match alLookup kvs "env" with
     | some (.map m) =>
       match yamlStrMap m with
       | some pairs => .ok (pairs.map (fun p => (p.1, expand_env_vars env p.2)))
       | none => .error "TypeError: MCP server 'env' values must be strings"
     | some _ => .error "MCP server 'env' must be a dictionary"
     | none => .ok []) >>= fun envMap =>
    .ok { cfg with
          servers := alInsert cfg.servers name
            { name := name, command := command, args := args,
              transport := transport, url := url, env := envMap } }
  | _ => .error "TypeError: MCP server entry must be a mapping"

/-- `_parse_agent` (one agent object; a falsy object is skipped). -/
def parseAgentItem (cfg : AgentfileConfig) (item : Yaml) :
    Except String AgentfileConfig :=
  if item.falsy then .ok cfg
  else match item with
  | .map kvs =>
    (match alLookup kvs "name" with
     | some (.str name) => .ok name
     | some _ => .error "TypeError: Agent 'name' must be a string"
     | none => .error "Agent must have a 'name' field") >>= fun name =>
    (match alLookup kvs "instruction" with
     | some (.str s) => .ok s
     | some _ => .error "TypeError: Agent 'instruction' must be a string"
     | none => .ok "You are a helpful agent.") >>= fun instruction =>
    (match alLookup kvs "servers" with
     | some (.list xs) =>
       match yamlStrList xs with
       | some servers => .ok servers
       | none => .error "TypeError: Agent 'servers' elements must be strings"
     | some _ => .error "Agent 'servers' must be a list"
     | none => .ok []) >>= fun servers =>
    (match alLookup kvs "model" with
     | some (.str s) => .ok (some s)
     | some _ => .error "TypeError: Agent 'model' must be a string"
     | none => .ok none) >>= fun model =>
    (match alLookup kvs "output_format" with
     | some ofc =>
       (match ofc with
        | .map okvs =>
          match alLookup okvs "type" with
          | none => .error "Agent 'output_format' must have a 'type' field"
          | some t =>
            if yamlEqStr t "json_schema" then
              match alLookup okvs "schema" with
              | none => .error "Agent 'output_format' with type 'json_schema' must have a 'schema' field"
              | some (.map s) =>
                .ok (some { type := "json_schema", schemaDoc := some (.map s) })
              | some _ => .error "Agent 'output_format' schema must be an object"
            else if yamlEqStr t "schema_file" then
              match alLookup okvs "file" with
              | none => .error "Agent 'output_format' with type 'schema_file' must have a 'file' field"
              | some (.str fp) =>
                if [".json".data, ".yaml".data, ".yml".data].any
                    (fun suf => suf.isSuffixOf fp.data) then
                  .ok (some { type := "schema_file", file := some fp })
                else .error "Agent 'output_format' file must reference a .json, .yaml, or .yml file"
              | some _ => .error "Agent 'output_format' file must be a string"
            else
              .error ("Invalid output_format type: " ++ yamlPyStr t ++
                ". Supported: json_schema, schema_file")
        | _ => .error "Agent 'output_format' must be an object")
     | none => .ok none) >>= fun output_format =>
    .ok { cfg with
          agents := alInsert cfg.agents name
            { name := name, instruction := instruction, servers := servers,
              model := model,
              use_history := match alLookup kvs "use_history" with
                             | some v => !v.falsy
                             | none => true,
              human_input := match alLookup kvs "human_input" with
                             | some v => !v.falsy
                             | none => false,
              default := match alLookup kvs "default" with
                         | some v => !v.falsy
                         | none => false,
              output_format := output_format } }
  | _ => .error "TypeError: agent entry must be a mapping"

/-- `_parse_routers`, one router object. -/
def parseRouterItem (cfg : AgentfileConfig) (item : Yaml) :
    Except String AgentfileConfig :=
  match item with
  | .map kvs =>
    (match alLookup kvs "name" with
     | some (.str name) => .ok name
     | some _ => .error "TypeError: Router 'name' must be a string"
     | none => .error "Router must have a 'name' field") >>= fun name =>
    (match alLookup kvs "agents" with
     | some (.list xs) =>
       match yamlStrList xs with
       | some agents => .ok agents
       | none => .error "TypeError: Router 'agents' elements must be strings"
     | some _ => .error "Router 'agents' must be a list"
     | none => .ok []) >>= fun agents =>
    (match alLookup kvs "model" with
     | some (.str s) => .ok (some s)
     | some _ => .error "TypeError: Router 'model' must be a string"
     | none => .ok none) >>= fun model =>
    (match alLookup kvs "instruction" with
     | some (.str s) => .ok (some s)
     | some _ => .error "TypeError: Router 'instruction' must be a string"
     | none => .ok none) >>= fun instruction =>
    .ok { cfg with
          routers := alInsert cfg.routers name
            { name := name, agents := agents, model := model,
              instruction := instruction,
              default := match alLookup kvs "default" with
                         | some v => !v.falsy
                         | none => false } }
  | _ => .error "TypeError: router entry must be a mapping"

/-- `_parse_chains`, one chain object. -/
def parseChainItem (cfg : AgentfileConfig) (item : Yaml) :
    Except String AgentfileConfig :=
  match item with
  | .map kvs =>
    (match alLookup kvs "name" with
     | some (.str name) => .ok name
     | some _ => .error "TypeError: Chain 'name' must be a string"
     | none => .error "Chain must have a 'name' field") >>= fun name =>
    (match alLookup kvs "sequence" with
     | some (.list xs) =>
       match yamlStrList xs with
       | some sequence => .ok sequence
       | none => .error "TypeError: Chain 'sequence' elements must be strings"
     | some _ => .error "Chain 'sequence' must be a list"
     | none => .ok []) >>= fun sequence =>
    (match alLookup kvs "instruction" with
     | some (.str s) => .ok (some s)
     | some _ => .error "TypeError: Chain 'instruction' must be a string"
     | none => .ok none) >>= fun instruction =>
    .ok { cfg with
          chains := alInsert cfg.chains name
            { name := name, sequence := sequence, instruction := instruction,
              cumulative := match alLookup kvs "cumulative" with
                            | some v => !v.falsy
                            | none => false,
              continue_with_final := match alLookup kvs "continue_with_final" with
                                     | some v => !v.falsy
                                     | none => true,
              default := match alLookup kvs "default" with
                         | some v => !v.falsy
                         | none => false } }
  | _ => .error "TypeError: chain entry must be a mapping"

/-- Python `int(x)` on a YAML scalar (bool is an int subclass). -/
def yamlToInt (y : Yaml) : Except String Int :=
  match y with
  | .int n => .ok n
  | .bool b => .ok (if b then 1 else 0)
  | .str s =>
    match pyInt s.data with
    | some n => .ok n
    | none => .error ("ValueError: invalid literal for int(): " ++ s)
  | _ => .error "TypeError: int() argument must be a string or a number"

/-- `_parse_orchestrators`, one orchestrator object. -/
def parseOrchestratorItem (cfg : AgentfileConfig) (item : Yaml) :
    Except String AgentfileConfig :=
  match item with
  | .map kvs =>
    (match alLookup kvs "name" with
     | some (.str name) => .ok name
     | some _ => .error "TypeError: Orchestrator 'name' must be a string"
     | none => .error "Orchestrator must have a 'name' field") >>= fun name =>
    (match alLookup kvs "agents" with
     | some (.list xs) =>
       match yamlStrList xs with
       | some agents => .ok agents
       | none => .error "TypeError: Orchestrator 'agents' elements must be strings"
     | some _ => .error "Orchestrator 'agents' must be a list"
     | none => .ok []) >>= fun agents =>
    (match alLookup kvs "model" with
     | some (.str s) => .ok (some s)
     | some _ => .error "TypeError: Orchestrator 'model' must be a string"
     | none => .ok none) >>= fun model =>
    (match alLookup kvs "instruction" with
     | some (.str s) => .ok (some s)
     | some _ => .error "TypeError: Orchestrator 'instruction' must be a string"
     | none => .ok none) >>= fun instruction =>
    (match alLookup kvs "plan_type" with
     | some t =>
       if yamlEqStr t "full" || yamlEqStr t "iterative" then .ok (yamlPyStr t)
       else .error ("Invalid plan type: " ++ yamlPyStr t)
     | none => .ok "full") >>= fun plan_type =>
    (match alLookup kvs "plan_iterations" with
     | some v => yamlToInt v
     | none => .ok 5) >>= fun plan_iterations =>
    .ok { cfg with
          orchestrators := alInsert cfg.orchestrators name
            { name := name, agents := agents, model := model,
              instruction := instruction, plan_type := plan_type,
              plan_iterations := plan_iterations,
              human_input := match alLookup kvs "human_input" with
                             | some v => !v.falsy
                             | none => false,
              default := match alLookup kvs "default" with
                         | some v => !v.falsy
                         | none => false } }
  | _ => .error "TypeError: orchestrator entry must be a mapping"

/-- `_parse_command` (`if command_config:` is a truthiness test, so an empty
list is a no-op; a truthy non-list is a hard error). -/
def parseCommandSection (cfg : AgentfileConfig) (c : Yaml) :
    Except String AgentfileConfig :=
  if c.falsy then .ok cfg
  else match c with
  | .list xs =>
    match yamlStrList xs with
    | some cmd => .ok { cfg with cmd := cmd }
    | none => .error "TypeError: command elements must be strings"
  | _ => .error "Command must be a list"

/-- `_parse_secrets`, one secret entry. -/
def parseSecretItem (env : Env) (cfg : AgentfileConfig) (item : Yaml) :
    Except String AgentfileConfig :=
  match item with
  | .str s => .ok { cfg with secrets := cfg.secrets ++ [.ref s] }
  | .map kvs =>
    (match alLookup kvs "name" with
     | some (.str name) => .ok name
     | some _ => .error "TypeError: Secret 'name' must be a string"
     | none => .error "Secret must have a 'name' field") >>= fun name =>
    (match alLookup kvs "value" with
     | some (.str v) =>
       .ok { cfg with secrets := cfg.secrets ++ [.value name (expand_env_vars env v)] }
     | some _ => .error "TypeError: Secret 'value' must be a string"
     | none =>
       match alLookup kvs "values" with
       | some (.map m) =>
         match yamlStrMap m with
         | some pairs =>
           .ok { cfg with secrets := cfg.secrets ++
                  [.context name (pairs.map (fun p => (p.1, expand_env_vars env p.2)))] }
         | none => .error "TypeError: Secret 'values' entries must be strings"
       | some _ => .error "Secret 'values' must be a dictionary"
       | none => .ok { cfg with secrets := cfg.secrets ++ [.ref name] })
  | _ => .error "Secret must be a string or dictionary"

/-- `_parse_expose_ports`, one entry (`isinstance(port, int)` also accepts
bools, an `int` subclass in Python). -/
def parseExposeItem (cfg : AgentfileConfig) (item : Yaml) :
    Except String AgentfileConfig :=
  match item with
  | .int port =>
    .ok { cfg with expose_ports :=
            if port ∈ cfg.expose_ports then cfg.expose_ports
            else cfg.expose_ports ++ [port] }
  | .bool b =>
    let port : Int := if b then 1 else 0
    .ok { cfg with expose_ports :=
            if port ∈ cfg.expose_ports then cfg.expose_ports
            else cfg.expose_ports ++ [port] }
  | _ => .error "Expose port must be an integer"

/-- `_parse_dockerfile_instructions`, one entry. -/
def parseDockerfileItem (cfg : AgentfileConfig) (item : Yaml) :
    Except String AgentfileConfig :=
  match item with
  | .map kvs =>
    match alLookup kvs "instruction", alLookup kvs "args" with
    | some inst, some args =>
      (match inst with
       | .str s => .ok (String.mk (pyUpper s.data))
       | _ => .error "AttributeError: Dockerfile 'instruction' must be a string") >>= fun inst =>
      match args with
      | .list xs =>
        match yamlStrList xs with
        | some argStrs =>
          .ok { cfg with dockerfile_instructions := cfg.dockerfile_instructions ++
                  [{ instruction := inst, args := argStrs }] }
        | none => .error "TypeError: Dockerfile 'args' elements must be strings"
      | _ => .error "Dockerfile instruction 'args' must be a list"
    | _, _ => .error "Dockerfile instruction must have 'instruction' and 'args' fields"
  | _ => .error "TypeError: dockerfile entry must be a mapping"

/-- A section that iterates over a YAML list (Python `for x in section:`);
a non-list section is a model error (Python would iterate object-generically). -/
def parseListSection (cfg : AgentfileConfig) (section' : Yaml)
    (f : AgentfileConfig → Yaml → Except String AgentfileConfig) :
    Except String AgentfileConfig :=
  match section' with
  | .list xs => xs.foldlM f cfg
  | _ => .error "TypeError: section must be a list"

/-- `AgentfileYamlParser.parse_content`, over the `yaml.safe_load` result
(`none` models a document that loaded as `None`, e.g. empty or
whitespace-only content). -/
def parseYamlDoc (env : Env) (data : Option Yaml) : Except String AgentfileConfig :=
  match data with
  | none => .ok defaultConfig
  | some d =>
    if d.falsy then .ok defaultConfig
    else match d with
    | .map kvs =>
      let api_version := yGetD kvs "apiVersion" (.str "v1")
      let kind := yGetD kvs "kind" (.str "Agent")
      if !yamlEqStr api_version "v1" then
        .error ("Unsupported API version: " ++ yamlPyStr api_version ++
          ". Only 'v1' is supported.")
      else if !yamlEqStr kind "Agent" then
        .error ("Unsupported kind: " ++ yamlPyStr kind ++ ". Only 'Agent' is supported.")
      else
        parseBaseSection defaultConfig (yGetD kvs "base" (.map [])) >>= fun cfg =>
        parseListSection cfg (yGetD kvs "mcp_servers" (.list [])) (parseServerItem env) >>= fun cfg =>
        -- `agent` (singular) and `agents` (plural) are concatenated
        (match alLookup kvs "agent" with
         | some a => .ok [a]
         | none => .ok []) >>= fun singleAgent =>
        (match alLookup kvs "agents" with
         | some (.list xs) => .ok xs
         | some _ => .error "TypeError: 'agents' section must be a list"
         | none => .ok []) >>= fun multiAgents =>
        (singleAgent ++ multiAgents).foldlM parseAgentItem cfg >>= fun cfg =>
        parseListSection cfg (yGetD kvs "routers" (.list [])) parseRouterItem >>= fun cfg =>
        parseListSection cfg (yGetD kvs "chains" (.list [])) parseChainItem >>= fun cfg =>
        parseListSection cfg (yGetD kvs "orchestrators" (.list [])) parseOrchestratorItem >>= fun cfg =>
        parseCommandSection cfg (yGetD kvs "command" (.list [])) >>= fun cfg =>
        parseListSection cfg (yGetD kvs "secrets" (.list [])) (parseSecretItem env) >>= fun cfg =>
        parseListSection cfg (yGetD kvs "expose" (.list [])) parseExposeItem >>= fun cfg =>
        parseListSection cfg (yGetD kvs "dockerfile" (.list [])) parseDockerfileItem
    | _ => .error "AttributeError: the YAML document root is not a mapping"

/-! ### Auxiliary lemmas: no handler except EXPOSE touches `expose_ports`,
and the EXPOSE handlers preserve distinctness -/

theorem handleFrom_frame {st st' : PState} {parts : List (List Char)}
    (h : handleFrom st parts = .ok st') :
    st'.config.expose_ports = st.config.expose_ports := by
  unfold handleFrom at h
  repeat' split at h
  all_goals first
    | (injection h with h; subst h; rfl)
    | exact Except.noConfusion h

theorem handleModel_frame {st st' : PState} {parts : List (List Char)}
    (h : handleModel st parts = .ok st') :
    st'.config.expose_ports = st.config.expose_ports := by
  unfold handleModel at h
  repeat' split at h
  all_goals first
    | (injection h with h; subst h; rfl)
    | exact Except.noConfusion h

theorem handleFramework_frame {st st' : PState} {parts : List (List Char)}
    (h : handleFramework st parts = .ok st') :
    st'.config.expose_ports = st.config.expose_ports := by
  unfold handleFramework at h
  dsimp only at h
  repeat' split at h
  all_goals first
    | (injection h with h; subst h; rfl)
    | exact Except.noConfusion h

theorem handleServer_frame {st st' : PState} {parts : List (List Char)}
    (h : handleServer st parts = .ok st') :
    st'.config.expose_ports = st.config.expose_ports := by
  unfold handleServer at h
  repeat' split at h
  all_goals first
    | (injection h with h; subst h; rfl)
    | exact Except.noConfusion h

theorem handleAgent_frame {st st' : PState} {parts : List (List Char)}
    (h : handleAgent st parts = .ok st') :
    st'.config.expose_ports = st.config.expose_ports := by
  unfold handleAgent at h
  repeat' split at h
  all_goals first
    | (injection h with h; subst h; rfl)
    | exact Except.noConfusion h

theorem handleRouter_frame {st st' : PState} {parts : List (List Char)}
    (h : handleRouter st parts = .ok st') :
    st'.config.expose_ports = st.config.expose_ports := by
  unfold handleRouter at h
  repeat' split at h
  all_goals first
    | (injection h with h; subst h; rfl)
    | exact Except.noConfusion h

theorem handleChain_frame {st st' : PState} {parts : List (List Char)}
    (h : handleChain st parts = .ok st') :
    st'.config.expose_ports = st.config.expose_ports := by
  unfold handleChain at h
  repeat' split at h
  all_goals first
    | (injection h with h; subst h; rfl)
    | exact Except.noConfusion h

theorem handleOrchestrator_frame {st st' : PState} {parts : List (List Char)}
    (h : handleOrchestrator st parts = .ok st') :
    st'.config.expose_ports = st.config.expose_ports := by
  unfold handleOrchestrator at h
  repeat' split at h
  all_goals first
    | (injection h with h; subst h; rfl)
    | exact Except.noConfusion h

theorem handleSecret_frame {env : Env} {st st' : PState} {parts : List (List Char)}
    (h : handleSecret env st parts = .ok st') :
    st'.config.expose_ports = st.config.expose_ports := by
  unfold handleSecret at h
  dsimp only at h
  repeat' split at h
  all_goals first
    | (injection h with h; subst h; rfl)
    | exact Except.noConfusion h

theorem handleCmd_frame {st st' : PState} {parts : List (List Char)}
    (h : handleCmd st parts = .ok st') :
    st'.config.expose_ports = st.config.expose_ports := by
  unfold handleCmd at h
  dsimp only at h
  repeat' split at h
  all_goals first
    | (injection h with h; subst h; rfl)
    | exact Except.noConfusion h

theorem handleDockerfileInstruction_frame {st st' : PState} {inst : String}
    {parts : List (List Char)}
    (h : handleDockerfileInstruction st inst parts = .ok st') :
    st'.config.expose_ports = st.config.expose_ports := by
  unfold handleDockerfileInstruction at h
  repeat' split at h
  all_goals first
    | (injection h with h; subst h; rfl)
    | exact Except.noConfusion h

theorem handleServerSub_frame {env : Env} {st st' : PState} {inst : String}
    {parts : List (List Char)}
    (h : handleServerSub env st inst parts = .ok st') :
    st'.config.expose_ports = st.config.expose_ports := by
  unfold handleServerSub at h
  dsimp only at h
  repeat' split at h
  all_goals first
    | (injection h with h; subst h; rfl)
    | exact Except.noConfusion h

theorem handleAgentSub_frame {st st' : PState} {inst : String}
    {parts : List (List Char)}
    (h : handleAgentSub st inst parts = .ok st') :
    st'.config.expose_ports = st.config.expose_ports := by
  unfold handleAgentSub at h
  repeat' split at h
  all_goals try exact Except.noConfusion h
  rename_i agent heq
  cases hu : agentSubUpdate agent _ _ with
  | error e => rw [hu] at h; exact Except.noConfusion h
  | ok a =>
    rw [hu] at h
    injection h with h; subst h; rfl

theorem handleRouterSub_frame {st st' : PState} {inst : String}
    {parts : List (List Char)}
    (h : handleRouterSub st inst parts = .ok st') :
    st'.config.expose_ports = st.config.expose_ports := by
  unfold handleRouterSub at h
  dsimp only at h
  repeat' split at h
  all_goals first
    | (injection h with h; subst h; rfl)
    | exact Except.noConfusion h

theorem handleChainSub_frame {st st' : PState} {inst : String}
    {parts : List (List Char)}
    (h : handleChainSub st inst parts = .ok st') :
    st'.config.expose_ports = st.config.expose_ports := by
  unfold handleChainSub at h
  dsimp only at h
  repeat' split at h
  all_goals first
    | (injection h with h; subst h; rfl)
    | exact Except.noConfusion h

theorem handleOrchestratorSub_frame {st st' : PState} {inst : String}
    {parts : List (List Char)}
    (h : handleOrchestratorSub st inst parts = .ok st') :
    st'.config.expose_ports = st.config.expose_ports := by
  unfold handleOrchestratorSub at h
  dsimp only at h
  repeat' split at h
  all_goals first
    | (injection h with h; subst h; rfl)
    | exact Except.noConfusion h

theorem handleSecretSub_frame {env : Env} {st st' : PState} {inst : String}
    {parts : List (List Char)}
    (h : handleSecretSub env st inst parts = .ok st') :
    st'.config.expose_ports = st.config.expose_ports := by
  unfold handleSecretSub at h
  dsimp only at h
  repeat' split at h
  all_goals first
    | (injection h with h; subst h; rfl)
    | exact Except.noConfusion h

theorem handleSub_frame {env : Env} {st st' : PState} {inst : String}
    {parts : List (List Char)}
    (h : handleSub env st inst parts = .ok st') :
    st'.config.expose_ports = st.config.expose_ports := by
  unfold handleSub at h
  repeat' split at h
  all_goals first
    | exact handleServerSub_frame h
    | exact handleAgentSub_frame h
    | exact handleRouterSub_frame h
    | exact handleChainSub_frame h
    | exact handleOrchestratorSub_frame h
    | exact handleSecretSub_frame h
    | exact (handleSecretSub_frame h).trans rfl
    | exact Except.noConfusion h

theorem handleExpose_nodup {st st' : PState} {parts : List (List Char)}
    (h : handleExpose st parts = .ok st')
    (hn : st.config.expose_ports.Nodup) :
    st'.config.expose_ports.Nodup := by
  unfold handleExpose at h
  repeat' split at h
  all_goals try exact Except.noConfusion h
  injection h with h; subst h
  dsimp only
  split
  · exact hn
  · next hmem =>
      exact List.Nodup.append hn (List.nodup_singleton _)
        (by intro a ha hb; simp at hb; subst hb; exact hmem ha)

theorem parseLineDispatch_expose_nodup {env : Env} {st st' : PState}
    {inst : String} {parts : List (List Char)}
    (h : parseLineDispatch env st inst parts = .ok st')
    (hn : st.config.expose_ports.Nodup) :
    st'.config.expose_ports.Nodup := by
  unfold parseLineDispatch at h
  repeat' split at h
  all_goals first
    | (injection h with h; subst h; exact hn)
    | exact Except.noConfusion h
    | (rw [handleModel_frame h]; exact hn)
    | (rw [handleFramework_frame h]; exact hn)
    | (rw [handleServer_frame h]; exact hn)
    | (rw [handleAgent_frame h]; exact hn)
    | (rw [handleRouter_frame h]; exact hn)
    | (rw [handleChain_frame h]; exact hn)
    | (rw [handleOrchestrator_frame h]; exact hn)
    | (rw [handleSecret_frame h]; exact hn)
    | (rw [handleCmd_frame h]; exact hn)
    | (rw [handleDockerfileInstruction_frame h]; exact hn)
    | (rw [handleSub_frame h]; exact hn)
    | (rename_i x hprev;
       rw [handleDockerfileInstruction_frame h, handleFrom_frame hprev]; exact hn)
    | (rename_i x hprev;
       rw [handleDockerfileInstruction_frame h];
       exact handleExpose_nodup hprev hn)
    | (injection h with h; subst h; rename_i x hprev;
       dsimp only; rw [handleCmd_frame hprev]; exact hn)

theorem parseLine_expose_nodup {env : Env} {st st' : PState} {line : List Char}
    (h : parseLine env st line = .ok st')
    (hn : st.config.expose_ports.Nodup) :
    st'.config.expose_ports.Nodup := by
  unfold parseLine at h
  split at h
  · injection h with h; subst h; exact hn
  · exact parseLineDispatch_expose_nodup h hn

theorem parseLineNumbered_expose_nodup {env : Env} {st st' : PState}
    {p : Nat × List Char}
    (h : parseLineNumbered env st p = .ok st')
    (hn : st.config.expose_ports.Nodup) :
    st'.config.expose_ports.Nodup := by
  unfold parseLineNumbered at h
  split at h
  · injection h with h; subst h
    exact parseLine_expose_nodup (by assumption) hn
  · exact Except.noConfusion h

theorem foldLines_expose_nodup {env : Env} :
    ∀ (ls : List (Nat × List Char)) (st st' : PState),
      ls.foldlM (parseLineNumbered env) st = .ok st' →
      st.config.expose_ports.Nodup → st'.config.expose_ports.Nodup := by
  intro ls
  induction ls with
  | nil =>
    intro st st' h hn
    simp only [List.foldlM_nil] at h
    injection h with h; subst h; exact hn
  | cons p rest ih =>
    intro st st' h hn
    simp only [List.foldlM_cons] at h
    cases hp : parseLineNumbered env st p with
    | error e => rw [hp] at h; exact Except.noConfusion h
    | ok st1 =>
      rw [hp] at h
      exact ih st1 st' h (parseLineNumbered_expose_nodup hp hn)

theorem parseContent_expose_nodup {env : Env} {content : String}
    {cfg : AgentfileConfig}
    (h : parseContent env content = .ok cfg) : cfg.expose_ports.Nodup := by
  unfold parseContent at h
  cases hs : parseContentSt env content with
  | error e => rw [hs] at h; exact Except.noConfusion h
  | ok st =>
    rw [hs] at h
    injection h with h; subst h
    exact foldLines_expose_nodup _ {} st hs (by simp [PState.config])

theorem exceptBind_ok {α β : Type} {x : Except String α} {f : α → Except String β}
    {b : β} (h : (x >>= f) = .ok b) : ∃ a, x = .ok a ∧ f a = .ok b := by
  cases x with
  | error e => exact Except.noConfusion h
  | ok a => exact ⟨a, rfl, h⟩

theorem parseBaseSection_frame {cfg cfg' : AgentfileConfig} {b : Yaml}
    (h : parseBaseSection cfg b = .ok cfg') :
    cfg'.expose_ports = cfg.expose_ports := by
  unfold parseBaseSection at h
  split at h
  · obtain ⟨c1, h1, h⟩ := exceptBind_ok h
    obtain ⟨c2, h2, h⟩ := exceptBind_ok h
    have e1 : c1.expose_ports = cfg.expose_ports := by
      repeat' split at h1
      all_goals first
        | (injection h1 with h1; subst h1; rfl)
        | exact Except.noConfusion h1
    have e2 : c2.expose_ports = c1.expose_ports := by
      repeat' split at h2
      all_goals first
        | (injection h2 with h2; subst h2; rfl)
        | exact Except.noConfusion h2
    have e3 : cfg'.expose_ports = c2.expose_ports := by
      dsimp only at h
      repeat' split at h
      all_goals first
        | (injection h with h; subst h; rfl)
        | exact Except.noConfusion h
    rw [e3, e2, e1]
  · exact Except.noConfusion h

theorem parseServerItem_frame {env : Env} {cfg cfg' : AgentfileConfig} {item : Yaml}
    (h : parseServerItem env cfg item = .ok cfg') :
    cfg'.expose_ports = cfg.expose_ports := by
  unfold parseServerItem at h
  split at h
  · obtain ⟨name, h1, h⟩ := exceptBind_ok h
    obtain ⟨command, h2, h⟩ := exceptBind_ok h
    obtain ⟨args, h3, h⟩ := exceptBind_ok h
    obtain ⟨transport, h4, h⟩ := exceptBind_ok h
    obtain ⟨url, h5, h⟩ := exceptBind_ok h
    obtain ⟨envMap, h6, h⟩ := exceptBind_ok h
    injection h with h; subst h; rfl
  · exact Except.noConfusion h

theorem parseAgentItem_frame {cfg cfg' : AgentfileConfig} {item : Yaml}
    (h : parseAgentItem cfg item = .ok cfg') :
    cfg'.expose_ports = cfg.expose_ports := by
  unfold parseAgentItem at h
  split at h
  · injection h with h; subst h; rfl
  · split at h
    · obtain ⟨name, h1, h⟩ := exceptBind_ok h
      obtain ⟨instruction, h2, h⟩ := exceptBind_ok h
      obtain ⟨servers, h3, h⟩ := exceptBind_ok h
      obtain ⟨model, h4, h⟩ := exceptBind_ok h
      obtain ⟨output_format, h5, h⟩ := exceptBind_ok h
      injection h with h; subst h; rfl
    · exact Except.noConfusion h

theorem parseRouterItem_frame {cfg cfg' : AgentfileConfig} {item : Yaml}
    (h : parseRouterItem cfg item = .ok cfg') :
    cfg'.expose_ports = cfg.expose_ports := by
  unfold parseRouterItem at h
  split at h
  · obtain ⟨name, h1, h⟩ := exceptBind_ok h
    obtain ⟨agents, h2, h⟩ := exceptBind_ok h
    obtain ⟨model, h3, h⟩ := exceptBind_ok h
    obtain ⟨instruction, h4, h⟩ := exceptBind_ok h
    injection h with h; subst h; rfl
  · exact Except.noConfusion h

theorem parseChainItem_frame {cfg cfg' : AgentfileConfig} {item : Yaml}
    (h : parseChainItem cfg item = .ok cfg') :
    cfg'.expose_ports = cfg.expose_ports := by
  unfold parseChainItem at h
  split at h
  · obtain ⟨name, h1, h⟩ := exceptBind_ok h
    obtain ⟨sequence, h2, h⟩ := exceptBind_ok h
    obtain ⟨instruction, h3, h⟩ := exceptBind_ok h
    injection h with h; subst h; rfl
  · exact Except.noConfusion h

theorem parseOrchestratorItem_frame {cfg cfg' : AgentfileConfig} {item : Yaml}
    (h : parseOrchestratorItem cfg item = .ok cfg') :
    cfg'.expose_ports = cfg.expose_ports := by
  unfold parseOrchestratorItem at h
  split at h
  · obtain ⟨name, h1, h⟩ := exceptBind_ok h
    obtain ⟨agents, h2, h⟩ := exceptBind_ok h
    obtain ⟨model, h3, h⟩ := exceptBind_ok h
    obtain ⟨instruction, h4, h⟩ := exceptBind_ok h
    obtain ⟨plan_type, h5, h⟩ := exceptBind_ok h
    obtain ⟨plan_iterations, h6, h⟩ := exceptBind_ok h
    injection h with h; subst h; rfl
  · exact Except.noConfusion h

theorem parseCommandSection_frame {cfg cfg' : AgentfileConfig} {c : Yaml}
    (h : parseCommandSection cfg c = .ok cfg') :
    cfg'.expose_ports = cfg.expose_ports := by
  unfold parseCommandSection at h
  repeat' split at h
  all_goals first
    | (injection h with h; subst h; rfl)
    | exact Except.noConfusion h

theorem parseSecretItem_frame {env : Env} {cfg cfg' : AgentfileConfig} {item : Yaml}
    (h : parseSecretItem env cfg item = .ok cfg') :
    cfg'.expose_ports = cfg.expose_ports := by
  unfold parseSecretItem at h
  split at h
  · injection h with h; subst h; rfl
  · obtain ⟨name, h1, h⟩ := exceptBind_ok h
    repeat' split at h
    all_goals first
      | (injection h with h; subst h; rfl)
      | exact Except.noConfusion h
  · exact Except.noConfusion h

theorem parseDockerfileItem_frame {cfg cfg' : AgentfileConfig} {item : Yaml}
    (h : parseDockerfileItem cfg item = .ok cfg') :
    cfg'.expose_ports = cfg.expose_ports := by
  unfold parseDockerfileItem at h
  split at h
  · split at h
    · obtain ⟨inst, h1, h⟩ := exceptBind_ok h
      repeat' split at h
      all_goals first
        | (injection h with h; subst h; rfl)
        | exact Except.noConfusion h
    · exact Except.noConfusion h
  · exact Except.noConfusion h

theorem parseExposeItem_nodup {cfg cfg' : AgentfileConfig} {item : Yaml}
    (h : parseExposeItem cfg item = .ok cfg')
    (hn : cfg.expose_ports.Nodup) : cfg'.expose_ports.Nodup := by
  unfold parseExposeItem at h
  dsimp only at h
  repeat' split at h
  all_goals try exact Except.noConfusion h
  all_goals injection h with h; subst h
  all_goals first
    | exact hn
    | (rename_i hmem;
       exact List.Nodup.append hn (List.nodup_singleton _)
         (by intro a ha hb; simp at hb; subst hb; exact hmem ha))

/-- Any predicate on the configuration preserved by the item handler is
preserved by the fold over a section's items. -/
theorem foldlM_config_pred {α : Type} {P : AgentfileConfig → Prop}
    {f : AgentfileConfig → α → Except String AgentfileConfig}
    (hf : ∀ cfg x cfg', f cfg x = .ok cfg' → P cfg → P cfg') :
    ∀ (xs : List α) (cfg cfg' : AgentfileConfig),
      xs.foldlM f cfg = .ok cfg' → P cfg → P cfg' := by
  intro xs
  induction xs with
  | nil =>
    intro cfg cfg' h hp
    simp only [List.foldlM_nil] at h
    injection h with h; subst h; exact hp
  | cons x rest ih =>
    intro cfg cfg' h hp
    simp only [List.foldlM_cons] at h
    cases hx : f cfg x with
    | error e => rw [hx] at h; exact Except.noConfusion h
    | ok c1 =>
      rw [hx] at h
      exact ih c1 cfg' h (hf cfg x c1 hx hp)

theorem parseListSection_pred {P : AgentfileConfig → Prop}
    {cfg cfg' : AgentfileConfig} {sec : Yaml}
    {f : AgentfileConfig → Yaml → Except String AgentfileConfig}
    (hf : ∀ cfg x cfg', f cfg x = .ok cfg' → P cfg → P cfg')
    (h : parseListSection cfg sec f = .ok cfg') (hp : P cfg) : P cfg' := by
  unfold parseListSection at h
  split at h
  · exact foldlM_config_pred hf _ _ _ h hp
  · exact Except.noConfusion h

theorem parseYamlDoc_expose_nodup {env : Env} {data : Option Yaml}
    {cfg : AgentfileConfig}
    (h : parseYamlDoc env data = .ok cfg) : cfg.expose_ports.Nodup := by
  unfold parseYamlDoc at h
  split at h
  · injection h with h; subst h; exact List.nodup_nil
  · split at h
    · injection h with h; subst h; exact List.nodup_nil
    · split at h
      · dsimp only at h
        split at h
        · exact Except.noConfusion h
        · split at h
          · exact Except.noConfusion h
          · obtain ⟨c1, hb, h⟩ := exceptBind_ok h
            obtain ⟨c2, hs, h⟩ := exceptBind_ok h
            obtain ⟨sa, hsa, h⟩ := exceptBind_ok h
            obtain ⟨ma, hma, h⟩ := exceptBind_ok h
            obtain ⟨c3, hag, h⟩ := exceptBind_ok h
            obtain ⟨c4, hr, h⟩ := exceptBind_ok h
            obtain ⟨c5, hc, h⟩ := exceptBind_ok h
            obtain ⟨c6, ho, h⟩ := exceptBind_ok h
            obtain ⟨c7, hcmd, h⟩ := exceptBind_ok h
            obtain ⟨c8, hsec, h⟩ := exceptBind_ok h
            obtain ⟨c9, hexp, h⟩ := exceptBind_ok h
            have n1 : c1.expose_ports.Nodup := by
              rw [parseBaseSection_frame hb]; exact List.nodup_nil
            have n2 : c2.expose_ports.Nodup :=
              @parseListSection_pred (fun c => c.expose_ports.Nodup) _ _ _ _
                (fun cfg x cfg' hx hp => by
                  show cfg'.expose_ports.Nodup
                  rw [parseServerItem_frame hx]; exact hp)
                hs n1
            have n3 : c3.expose_ports.Nodup :=
              @foldlM_config_pred Yaml (fun c => c.expose_ports.Nodup) _
                (fun cfg x cfg' hx hp => by
                  show cfg'.expose_ports.Nodup
                  rw [parseAgentItem_frame hx]; exact hp)
                _ _ _ hag n2
            have n4 : c4.expose_ports.Nodup :=
              @parseListSection_pred (fun c => c.expose_ports.Nodup) _ _ _ _
                (fun cfg x cfg' hx hp => by
                  show cfg'.expose_ports.Nodup
                  rw [parseRouterItem_frame hx]; exact hp)
                hr n3
            have n5 : c5.expose_ports.Nodup :=
              @parseListSection_pred (fun c => c.expose_ports.Nodup) _ _ _ _
                (fun cfg x cfg' hx hp => by
                  show cfg'.expose_ports.Nodup
                  rw [parseChainItem_frame hx]; exact hp)
                hc n4
            have n6 : c6.expose_ports.Nodup :=
              @parseListSection_pred (fun c => c.expose_ports.Nodup) _ _ _ _
                (fun cfg x cfg' hx hp => by
                  show cfg'.expose_ports.Nodup
                  rw [parseOrchestratorItem_frame hx]; exact hp)
                ho n5
            have n7 : c7.expose_ports.Nodup := by
              rw [parseCommandSection_frame hcmd]; exact n6
            have n8 : c8.expose_ports.Nodup :=
              @parseListSection_pred (fun c => c.expose_ports.Nodup) _ _ _ _
                (fun cfg x cfg' hx hp => by
                  show cfg'.expose_ports.Nodup
                  rw [parseSecretItem_frame hx]; exact hp)
                hsec n7
            have n9 : c9.expose_ports.Nodup :=
              @parseListSection_pred (fun c => c.expose_ports.Nodup) _ _ _ _
                (fun cfg x cfg' hx hp => parseExposeItem_nodup hx hp)
                hexp n8
            exact @parseListSection_pred (fun c => c.expose_ports.Nodup) _ _ _ _
              (fun cfg x cfg' hx hp => by
                  show cfg'.expose_ports.Nodup
                  rw [parseDockerfileItem_frame hx]; exact hp)
              h n9
      · exact Except.noConfusion h

/-! ## Theorems about the claims -/

/-- An environment with no variables set, used to instantiate closed
statements. -/
def envNone : Env := fun _ => none

/-- C2: `SECRET openai` followed by `API_KEY sk-test123` and
`BASE_URL https://api.openai.com/v1` produces exactly one context-type
Secret named "openai" with both keys set; a second `SECRET openai` followed
by `API_KEY sk-new` mutates that same context (overwriting `API_KEY`,
keeping `BASE_URL`) and never appends a second Secret with that name. -/
theorem secret_context_merge_spec (env : Env) :
    (parseContent env
        "SECRET openai\nAPI_KEY sk-test123\nBASE_URL https://api.openai.com/v1").map
      (·.secrets) =
      .ok [.context "openai"
            [("API_KEY", "sk-test123"), ("BASE_URL", "https://api.openai.com/v1")]] ∧
    (parseContent env
        ("SECRET openai\nAPI_KEY sk-test123\nBASE_URL https://api.openai.com/v1\n" ++
         "SECRET openai\nAPI_KEY sk-new")).map (·.secrets) =
      .ok [.context "openai"
            [("API_KEY", "sk-new"), ("BASE_URL", "https://api.openai.com/v1")]] :=
  ⟨rfl, rfl⟩

/-- C3 counterexample: a YAML document that omits the `apiVersion` key
parses successfully (the code defaults it to `'v1'`), so presence of the
key is not required as the claim states. -/
theorem apiVersion_presence_not_required :
    parseYamlDoc envNone (some (.map [("kind", Yaml.str "Agent")])) =
      .ok defaultConfig := rfl

/-- C3 amended: `apiVersion` defaults to `"v1"` and `kind` to `"Agent"`
when absent; when the retrieved value differs from the expected one, the
parse fails with a hard error naming the unsupported value (the
`apiVersion` check running first). -/
theorem apiVersion_kind_value_checks (env : Env) (kvs : List (String × Yaml)) :
    (yamlEqStr (yGetD kvs "apiVersion" (.str "v1")) "v1" = false →
      parseYamlDoc env (some (.map kvs)) =
        .error ("Unsupported API version: " ++
          yamlPyStr (yGetD kvs "apiVersion" (.str "v1")) ++
          ". Only 'v1' is supported.")) ∧
    (yamlEqStr (yGetD kvs "apiVersion" (.str "v1")) "v1" = true →
     yamlEqStr (yGetD kvs "kind" (.str "Agent")) "Agent" = false →
      parseYamlDoc env (some (.map kvs)) =
        .error ("Unsupported kind: " ++
          yamlPyStr (yGetD kvs "kind" (.str "Agent")) ++
          ". Only 'Agent' is supported.")) := by
  constructor
  · intro h
    match kvs with
    | [] => simp [yGetD, alLookup, yamlEqStr] at h
    | p :: rest =>
      simp only [parseYamlDoc, Yaml.falsy, List.isEmpty_cons, if_false, Bool.false_eq_true,
        ite_false, h, Bool.not_false, if_true]
  · intro h1 h2
    match kvs with
    | [] => simp [yGetD, alLookup, yamlEqStr] at h2
    | p :: rest =>
      simp only [parseYamlDoc, Yaml.falsy, List.isEmpty_cons, Bool.false_eq_true,
        ite_false, h1, h2, Bool.not_false, Bool.not_true, if_true, if_false]

/-- C3 amended, witness: a document with `apiVersion: v2` fails naming
`v2`; one with `kind: Pod` fails naming `Pod`. -/
theorem apiVersion_kind_value_checks_witness :
    parseYamlDoc envNone (some (.map [("apiVersion", Yaml.str "v2")])) =
      .error "Unsupported API version: v2. Only 'v1' is supported." ∧
    parseYamlDoc envNone (some (.map [("kind", Yaml.str "Pod")])) =
      .error "Unsupported kind: Pod. Only 'Agent' is supported." :=
  ⟨(apiVersion_kind_value_checks envNone [("apiVersion", Yaml.str "v2")]).1 rfl,
   (apiVersion_kind_value_checks envNone [("kind", Yaml.str "Pod")]).2 rfl rfl⟩

/-- C4: the YAML parser has no handling for a top-level `entrypoint`
section; a document carrying `entrypoint: "not-a-list"` (which the
repository's tests require to be a hard error "Entrypoint must be a list")
parses successfully with the key silently ignored, and `AgentfileConfig`
has no entrypoint field at all. -/
theorem yaml_entrypoint_ignored (env : Env) :
    parseYamlDoc env (some (.map
        [("apiVersion", .str "v1"), ("kind", .str "Agent"),
         ("agent", .map [("name", .str "test")]),
         ("entrypoint", .str "not-a-list")])) =
      .ok { agents := [("test", { name := "test" })] } := rfl

/-- C9: parsing `FROM myimg` and `EXPOSE 8080` sets `base_image` and
`expose_ports` and also appends both keywords to
`dockerfile_instructions`; the serializer filters FROM and CMD out of the
replayed instructions but not EXPOSE, so the regenerated text carries
`EXPOSE 8080` twice and `FROM myimg` once.  In general every replayed
non-FROM/CMD instruction line and every `EXPOSE <port>` line occurs in
the serializer output. -/
theorem from_expose_dual_effect (env : Env) :
    parseContent env "FROM myimg\nEXPOSE 8080" =
      .ok { base_image := "myimg", expose_ports := [8080],
            dockerfile_instructions :=
              [{ instruction := "FROM", args := ["myimg"] },
               { instruction := "EXPOSE", args := ["8080"] }] } ∧
    config_to_dockerfile_content
        { base_image := "myimg", expose_ports := [8080],
          dockerfile_instructions :=
            [{ instruction := "FROM", args := ["myimg"] },
             { instruction := "EXPOSE", args := ["8080"] }] } =
      "FROM myimg\n\nEXPOSE 8080\nEXPOSE 8080\n" ∧
    (buildDockerfileLines
        { base_image := "myimg", expose_ports := [8080],
          dockerfile_instructions :=
            [{ instruction := "FROM", args := ["myimg"] },
             { instruction := "EXPOSE", args := ["8080"] }] }).count "EXPOSE 8080" = 2 ∧
    (∀ cfg : AgentfileConfig, ∀ i ∈ cfg.dockerfile_instructions,
      i.instruction ≠ "FROM" → i.instruction ≠ "CMD" →
      i.to_dockerfile_line ∈ buildDockerfileLines cfg) ∧
    (∀ cfg : AgentfileConfig, ∀ p ∈ cfg.expose_ports,
      ("EXPOSE " ++ toString p) ∈ buildDockerfileLines cfg) := by
  refine ⟨rfl, rfl, rfl, ?_, ?_⟩
  · intro cfg i hi h1 h2
    unfold buildDockerfileLines
    simp only [List.mem_append]
    left; left; right
    exact List.mem_map_of_mem _ (List.mem_filter.mpr ⟨hi, by simp [h1, h2]⟩)
  · intro cfg p hp
    unfold buildDockerfileLines
    simp only [List.mem_append]
    left; right
    exact List.mem_map_of_mem _ hp

/-- C9 witness: the general membership facts applied to the concrete
configuration parsed from `FROM myimg` + `EXPOSE 8080`. -/
theorem from_expose_dual_effect_witness :
    ("EXPOSE 8080" : String) ∈ buildDockerfileLines
      { base_image := "myimg", expose_ports := [8080],
        dockerfile_instructions :=
          [{ instruction := "FROM", args := ["myimg"] },
           { instruction := "EXPOSE", args := ["8080"] }] } :=
  (from_expose_dual_effect envNone).2.2.2.1
    { base_image := "myimg", expose_ports := [8080],
      dockerfile_instructions :=
        [{ instruction := "FROM", args := ["myimg"] },
         { instruction := "EXPOSE", args := ["8080"] }] }
    { instruction := "EXPOSE", args := ["8080"] } (by simp)
    (by decide) (by decide)

/-- C10: a YAML document that loads as `None` (empty or whitespace-only
content) or as any falsy value is accepted and yields the default
configuration; the apiVersion/kind checks and all section parsing are
skipped. -/
theorem empty_yaml_default_config (env : Env) :
    parseYamlDoc env none = .ok defaultConfig ∧
    ∀ d : Yaml, d.falsy = true → parseYamlDoc env (some d) = .ok defaultConfig := by
  refine ⟨rfl, ?_⟩
  intro d h
  simp only [parseYamlDoc, h, if_true]

/-- C10 witness: the null document (what `yaml.safe_load` returns for
empty or whitespace-only content) yields the default configuration. -/
theorem empty_yaml_default_config_witness :
    parseYamlDoc envNone (some .null) = .ok defaultConfig :=
  (empty_yaml_default_config envNone).2 .null rfl

/-- C6 counterexample: `EXPOSE 70000` parses successfully and stores a
port outside the claimed 1–65535 range (neither parser checks any range). -/
theorem expose_range_unchecked :
    (parseContent envNone "EXPOSE 70000").map (·.expose_ports) = .ok [70000] ∧
    ¬ (∀ p ∈ ([70000] : List Int), 1 ≤ p ∧ p ≤ 65535) := by
  exact ⟨rfl, by decide⟩

/-- C6 amended: after any successful parse (either syntax), the
configuration's `expose_ports` is a list of distinct integers — no range
restriction is enforced — with duplicates dropped on insert; in particular
`EXPOSE 8080` twice yields `[8080]`. -/
theorem expose_ports_distinct :
    (∀ (env : Env) (content : String) (cfg : AgentfileConfig),
        parseContent env content = .ok cfg → cfg.expose_ports.Nodup) ∧
    (∀ (env : Env) (data : Option Yaml) (cfg : AgentfileConfig),
        parseYamlDoc env data = .ok cfg → cfg.expose_ports.Nodup) ∧
    (∀ env : Env,
        (parseContent env "EXPOSE 8080\nEXPOSE 8080").map (·.expose_ports) =
          .ok [8080]) :=
  ⟨fun _ _ _ h => parseContent_expose_nodup h,
   fun _ _ _ h => parseYamlDoc_expose_nodup h,
   fun _ => rfl⟩

/-- C6 witness: the distinctness invariant applied to the concrete parse
of `EXPOSE 8080`. -/
theorem expose_ports_distinct_witness :
    ({ expose_ports := [8080],
       dockerfile_instructions := [{ instruction := "EXPOSE", args := ["8080"] }] } :
      AgentfileConfig).expose_ports.Nodup :=
  expose_ports_distinct.1 envNone "EXPOSE 8080" _ rfl

theorem firstDanglingServer_eq_none {servers : List (String × MCPServer)} :
    ∀ agents : List (String × Agent),
      firstDanglingServer servers agents = none ↔
        ∀ p ∈ agents, ∀ s ∈ p.2.servers, alContains servers s = true := by
  intro agents
  induction agents with
  | nil => simp [firstDanglingServer]
  | cons p rest ih =>
    obtain ⟨nm, agent⟩ := p
    simp only [firstDanglingServer]
    cases hf : agent.servers.find? (fun s => !alContains servers s) with
    | some s =>
      simp only [reduceCtorEq, false_iff]
      intro hall
      have hmem := List.mem_of_find?_eq_some hf
      have hpred := List.find?_some hf
      have := hall (nm, agent) (List.mem_cons_self _ _) s hmem
      simp [this] at hpred
    | none =>
      rw [List.find?_eq_none] at hf
      simp only [true_iff, ih]
      constructor
      · intro hall q hq s hs
        rcases List.mem_cons.mp hq with hq | hq
        · subst hq
          have := hf s hs
          simpa using this
        · exact hall q hq s hs
      · intro hall q hq s hs
        exact hall q (List.mem_cons_of_mem _ hq) s hs

/-- C8: the validator passes exactly when the base image is non-empty, at
least one agent is declared, and every server name referenced by any
agent's `servers` list exists in the configuration's server mapping; it
reports only the first violation found (base image first, then missing
agents, then the first dangling reference in agent order). -/
theorem validator_spec (c : AgentfileConfig) :
    (validateConfig c = true ↔
      (c.base_image ≠ "" ∧ c.agents ≠ [] ∧
        ∀ p ∈ c.agents, ∀ s ∈ p.2.servers, alContains c.servers s = true)) ∧
    (c.base_image = "" → validationMessage c = some "Missing base image") ∧
    (c.base_image ≠ "" → c.agents = [] →
      validationMessage c = some "No agents defined") := by
  refine ⟨?_, ?_, ?_⟩
  · unfold validateConfig validationMessage
    by_cases hb : c.base_image = ""
    · simp [hb]
    · by_cases ha : c.agents = []
      · simp [hb, ha]
      · simp only [hb, ha, List.isEmpty_iff, if_false, ne_eq, not_false_iff,
          true_and, if_neg]
        rw [Option.isNone_iff_eq_none, firstDanglingServer_eq_none]
  · intro hb
    unfold validationMessage
    simp [hb]
  · intro hb ha
    unfold validationMessage
    simp [hb, ha]

/-- C8 witness: the validator facts applied to a concrete configuration
with one agent whose single server reference resolves, and to the empty
configuration. -/
theorem validator_spec_witness :
    validateConfig
      { agents := [("a", { name := "a", servers := ["s"] })],
        servers := [("s", { name := "s" })] } = true ∧
    validationMessage { base_image := "" } = some "Missing base image" :=
  ⟨(validator_spec _).1.mpr ⟨by decide, by simp, by decide⟩,
   (validator_spec _).2.1 rfl⟩

/-- A valid environment-variable name `[A-Za-z_][A-Za-z0-9_]*`. -/
def validVarNameB : List Char → Bool
  | [] => false
  | c :: rest => isNameStart c && rest.all isNameChar

theorem expandAux_nil {env : Env} : ∀ f : Nat, expandAux env f [] = [] := by
  intro f; cases f <;> rfl

theorem takeWhile_dropWhile_boundary {p : Char → Bool} :
    ∀ (l : List Char) (c : Char) (rest : List Char),
      (∀ x ∈ l, p x = true) → p c = false →
      (l ++ c :: rest).takeWhile p = l ∧ (l ++ c :: rest).dropWhile p = c :: rest := by
  intro l
  induction l with
  | nil =>
    intro c rest _ hc
    simp [List.takeWhile_cons, List.dropWhile_cons, hc]
  | cons a l' ih =>
    intro c rest hall hc
    have ha : p a = true := hall a (List.mem_cons_self _ _)
    have := ih c rest (fun x hx => hall x (List.mem_cons_of_mem _ hx)) hc
    simp [List.takeWhile_cons, List.dropWhile_cons, ha, this.1, this.2]

theorem scanName_boundary {name : List Char} {c : Char} {rest : List Char}
    (hv : validVarNameB name = true) (hc : isNameChar c = false) :
    scanName (name ++ c :: rest) = some (name, c :: rest) := by
  match name with
  | [] => simp [validVarNameB] at hv
  | a :: tl =>
    simp only [validVarNameB, Bool.and_eq_true, List.all_eq_true] at hv
    have h := takeWhile_dropWhile_boundary tl c rest (fun x hx => hv.2 x hx) hc
    simp [scanName, hv.1, h.1, h.2]

theorem scanName_all {name : List Char} (hv : validVarNameB name = true) :
    scanName name = some (name, []) := by
  match name with
  | [] => simp [validVarNameB] at hv
  | a :: tl =>
    simp only [validVarNameB, Bool.and_eq_true, List.all_eq_true] at hv
    have ht : tl.takeWhile isNameChar = tl := by
      rw [List.takeWhile_eq_self_iff]
      intro x hx; exact hv.2 x hx
    have hd : tl.dropWhile isNameChar = [] := by
      rw [List.dropWhile_eq_nil_iff]
      intro x hx; exact hv.2 x hx
    simp [scanName, hv.1, ht, hd]

theorem isNameStart_ne_brace {a : Char} (h : isNameStart a = true) : a ≠ '{' := by
  intro heq; subst heq; simp [isNameStart] at h

theorem expand_braced (env : Env) {name : List Char}
    (hv : validVarNameB name = true) :
    expand_env_vars env (String.mk ('$' :: '{' :: (name ++ ['}']))) =
      (env (String.mk name)).getD (String.mk ('$' :: '{' :: (name ++ ['}']))) := by
  unfold expand_env_vars expandChars
  have hb : scanName (name ++ ['}']) = some (name, ['}']) :=
    scanName_boundary hv (by decide)
  cases henv : env (String.mk name) with
  | some v => simp [expandAux, hb, henv, expandAux_nil]
  | none => simp [expandAux, hb, henv, expandAux_nil]

theorem expand_bare (env : Env) {name : List Char}
    (hv : validVarNameB name = true) :
    expand_env_vars env (String.mk ('$' :: name)) =
      (env (String.mk name)).getD (String.mk ('$' :: name)) := by
  match name with
  | [] => simp [validVarNameB] at hv
  | a :: tl =>
    have ha : ¬ (a = '{') := by
      have : isNameStart a = true := by
        simp only [validVarNameB, Bool.and_eq_true] at hv
        exact hv.1
      exact isNameStart_ne_brace this
    unfold expand_env_vars expandChars
    cases henv : env (String.mk (a :: tl)) with
    | some v => simp [expandAux, if_neg ha, scanName_all hv, henv, expandAux_nil]
    | none => simp [expandAux, if_neg ha, scanName_all hv, henv, expandAux_nil]

theorem expand_foo_bar (env : Env) (hF : env "FOO" = some "x")
    (hB : env "BAR" = none) :
    expand_env_vars env "$FOO/$BAR" = "x/$BAR" := by
  have e1 : expandChars env "$FOO/$BAR".data =
      (match env "FOO" with
       | some v => v.data ++ expandAux env 8 "/$BAR".data
       | none => '$' :: ("FOO".data ++ expandAux env 8 "/$BAR".data)) := rfl
  rw [hF] at e1
  have e2 : expandAux env 8 "/$BAR".data =
      '/' :: (match env "BAR" with
       | some v => v.data ++ expandAux env 6 ([] : List Char)
       | none => '$' :: ("BAR".data ++ expandAux env 6 ([] : List Char))) := rfl
  rw [hB] at e2
  show String.mk (expandChars env "$FOO/$BAR".data) = "x/$BAR"
  rw [e1, e2]
  rfl

/-- C7: the env-expansion utility replaces `${NAME}` and bare `$NAME`
(NAME matching `[A-Za-z_][A-Za-z0-9_]*`) with the environment value of
NAME when set and leaves the placeholder text unchanged when NAME is
unset; variables are resolved independently left to right, so with FOO=x
and BAR unset, `"$FOO/$BAR"` expands to `"x/$BAR"`. -/
theorem expand_env_vars_spec (env : Env) :
    (∀ name : List Char, validVarNameB name = true →
      expand_env_vars env (String.mk ('$' :: '{' :: (name ++ ['}']))) =
        (env (String.mk name)).getD (String.mk ('$' :: '{' :: (name ++ ['}'])))) ∧
    (∀ name : List Char, validVarNameB name = true →
      expand_env_vars env (String.mk ('$' :: name)) =
        (env (String.mk name)).getD (String.mk ('$' :: name))) ∧
    (env "FOO" = some "x" → env "BAR" = none →
      expand_env_vars env "$FOO/$BAR" = "x/$BAR") :=
  ⟨fun _ hv => expand_braced env hv,
   fun _ hv => expand_bare env hv,
   fun hF hB => expand_foo_bar env hF hB⟩

/-- C7 witness: the spec applied at a concrete environment with FOO=x and
BAR unset, for `${FOO}`, `$FOO` and the two-variable example. -/
theorem expand_env_vars_spec_witness :
    expand_env_vars (fun s => if s = "FOO" then some "x" else none) "${FOO}" = "x" ∧
    expand_env_vars (fun s => if s = "FOO" then some "x" else none) "$BAR" = "$BAR" ∧
    expand_env_vars (fun s => if s = "FOO" then some "x" else none) "$FOO/$BAR" =
      "x/$BAR" :=
  ⟨(expand_env_vars_spec _).1 ['F', 'O', 'O'] (by decide),
   (expand_env_vars_spec _).2.1 ['B', 'A', 'R'] (by decide),
   (expand_env_vars_spec _).2.2 rfl rfl⟩

theorem splitNL_replicate :
    ∀ (k : Nat) (cs : List Char),
      splitNL (List.replicate k '\n' ++ cs) = List.replicate k [] ++ splitNL cs := by
  intro k
  induction k with
  | zero => intro cs; rfl
  | succ k ih =>
    intro cs
    simp only [List.replicate_succ, List.cons_append, splitNL, if_true,
      List.append_eq, ih]

theorem processAux_skip_blanks {total : Nat} :
    ∀ (k : Nat) (ls : List (List Char)) (n : Nat),
      processAux total (List.replicate k [] ++ ls) n [] none =
        processAux total ls (n + k) [] none := by
  intro k
  induction k with
  | zero => intro ls n; rfl
  | succ k ih =>
    intro ls n
    simp only [List.replicate_succ, List.cons_append]
    show processAux total (List.replicate k [] ++ ls) (n + 1) [] none = _
    rw [ih]
    have : n + 1 + k = n + (k + 1) := by omega
    rw [this]

/-- C5: the continuation preprocessor emits the RUN instruction spanning
three physical lines as one logical line tagged with the physical line
number of the first fragment (shown after any number of leading blank
lines), joining the fragments with a single space after each stripped
fragment; tokenization then collapses the internal whitespace so the
stored `DockerfileInstruction`'s args join to exactly the expected
command string. -/
theorem run_continuation_flattening :
    (∀ k : Nat,
      processedLines (String.mk (List.replicate k '\n') ++
          "RUN apt-get update && apt-get install -y \\\n    wget \\\n    && rm -rf /var/lib/apt/lists/*") =
        [(k + 1,
          "RUN apt-get update && apt-get install -y     wget     && rm -rf /var/lib/apt/lists/*".data)]) ∧
    (∀ env : Env,
      (parseContent env
          "RUN apt-get update && apt-get install -y \\\n    wget \\\n    && rm -rf /var/lib/apt/lists/*").map
        (·.dockerfile_instructions) =
        .ok [{ instruction := "RUN",
               args := ["apt-get", "update", "&&", "apt-get", "install", "-y",
                        "wget", "&&", "rm", "-rf", "/var/lib/apt/lists/*"] }]) ∧
    joinSpace ["apt-get", "update", "&&", "apt-get", "install", "-y", "wget",
               "&&", "rm", "-rf", "/var/lib/apt/lists/*"] =
      "apt-get update && apt-get install -y wget && rm -rf /var/lib/apt/lists/*" := by
  refine ⟨?_, fun _ => rfl, rfl⟩
  intro k
  unfold processedLines
  rw [String.data_append]
  show processAux _ (splitNL (List.replicate k '\n' ++ _)) 1 [] none = _
  rw [splitNL_replicate]
  rw [processAux_skip_blanks]
  have h1 : 1 + k = k + 1 := by omega
  rw [h1]
  exact rfl

/-- A character that the tokenizer and preprocessor treat as plain text:
not whitespace, not a quote, not a backslash. -/
def simpleChar (c : Char) : Bool :=
  !pyIsSpace c && !(c = '"') && !(c = '\'') && !(c = '\\')

/-- A non-empty name made of plain characters. -/
def simpleNameB (n : List Char) : Bool :=
  !n.isEmpty && n.all simpleChar

theorem simpleNameB_ne_nil {n : List Char} (h : simpleNameB n = true) : n ≠ [] := by
  intro heq; subst heq; simp [simpleNameB] at h

theorem simpleNameB_mem {n : List Char} (h : simpleNameB n = true) :
    ∀ c ∈ n, simpleChar c = true := by
  simp only [simpleNameB, Bool.and_eq_true, List.all_eq_true] at h
  exact h.2

theorem unquote_simple {n : List Char} (h : simpleNameB n = true) :
    unquote n = n := by
  unfold unquote
  split
  · match n, h with
    | c :: rest, h =>
      have hc : simpleChar c = true := simpleNameB_mem h c (List.mem_cons_self _ _)
      simp only [simpleChar, Bool.and_eq_true, Bool.not_eq_true'] at hc
      have hq1 : ¬ (c = '"') := by simpa using hc.1.1.2
      have hq2 : ¬ (c = '\'') := by simpa using hc.1.2
      show (if (c = '"' || c = '\'') && rest.getLast? = some c then rest.dropLast
            else c :: rest) = c :: rest
      rw [if_neg (by simp [hq1, hq2])]
  · rfl

theorem splitQuotesAux_simple :
    ∀ (n acc : List Char), (∀ c ∈ n, simpleChar c = true) → acc ++ n ≠ [] →
      splitQuotesAux n acc none = [acc ++ n] := by
  intro n
  induction n with
  | nil =>
    intro acc _ hne
    simp only [List.append_nil] at hne ⊢
    simp [splitQuotesAux, hne]
  | cons c rest ih =>
    intro acc hall hne
    have hc : simpleChar c = true := hall c (List.mem_cons_self _ _)
    simp only [simpleChar, Bool.and_eq_true, Bool.not_eq_true'] at hc
    rw [splitQuotesAux]
    rw [if_neg (by simp [hc.1.1.2, hc.1.2]), if_neg (by simp [hc.1.1.1])]
    rw [ih (acc ++ [c]) (fun x hx => hall x (List.mem_cons_of_mem _ hx)) (by simp)]
    simp

theorem split_line_agent {n : List Char} (h : simpleNameB n = true) :
    splitRespectingQuotes ("AGENT ".data ++ n) = ["AGENT".data, n] := by
  show splitQuotesAux ('A' :: 'G' :: 'E' :: 'N' :: 'T' :: ' ' :: n) [] none = _
  rw [splitQuotesAux]; rw [if_neg (by decide), if_neg (by decide)]
  rw [splitQuotesAux]; rw [if_neg (by decide), if_neg (by decide)]
  rw [splitQuotesAux]; rw [if_neg (by decide), if_neg (by decide)]
  rw [splitQuotesAux]; rw [if_neg (by decide), if_neg (by decide)]
  rw [splitQuotesAux]; rw [if_neg (by decide), if_neg (by decide)]
  rw [splitQuotesAux]; rw [if_neg (by decide), if_pos (by decide),
    if_pos (by decide)]
  rw [splitQuotesAux_simple n [] (simpleNameB_mem h)
    (by simpa using simpleNameB_ne_nil h)]
  rfl

theorem pyRstrip_append_simple {n : List Char} (h : simpleNameB n = true)
    (xs : List Char) : pyRstrip (xs ++ n) = xs ++ n := by
  unfold pyRstrip
  suffices hs : ((xs ++ n).reverse.dropWhile pyIsSpace) = (xs ++ n).reverse by
    rw [hs, List.reverse_reverse]
  cases hr : n.reverse with
  | nil => exact absurd (by simpa using congrArg List.reverse hr) (simpleNameB_ne_nil h)
  | cons c t =>
    have hc : c ∈ n := by
      have : c ∈ n.reverse := by rw [hr]; exact List.mem_cons_self _ _
      simpa using this
    have hcs : simpleChar c = true := simpleNameB_mem h c hc
    have hns : pyIsSpace c = false := by
      simp only [simpleChar, Bool.and_eq_true, Bool.not_eq_true'] at hcs
      exact hcs.1.1.1
    rw [List.reverse_append, hr]
    simp [List.dropWhile_cons, hns]

theorem endsWithBackslash_append_simple {n : List Char} (h : simpleNameB n = true)
    (xs : List Char) : endsWithBackslash (xs ++ n) = false := by
  unfold endsWithBackslash
  cases hr : n.getLast? with
  | none => exact absurd (List.getLast?_eq_none_iff.mp hr) (simpleNameB_ne_nil h)
  | some c =>
    have hc : c ∈ n := by
      obtain ⟨hne, hceq⟩ := List.mem_getLast?_eq_getLast (Option.mem_def.mpr hr)
      rw [hceq]; exact List.getLast_mem hne
    have hcs : simpleChar c = true := simpleNameB_mem h c hc
    have hnb : ¬ (c = '\\') := by
      simp only [simpleChar, Bool.and_eq_true, Bool.not_eq_true'] at hcs
      simpa using hcs.2
    rw [List.getLast?_append_of_ne_nil xs (simpleNameB_ne_nil h), hr]
    simp [hnb]

theorem splitNL_no_newline :
    ∀ cs : List Char, (∀ c ∈ cs, ¬ (c = '\n')) → splitNL cs = [cs] := by
  intro cs
  induction cs with
  | nil => intro; rfl
  | cons c rest ih =>
    intro hall
    rw [splitNL, if_neg (hall c (List.mem_cons_self _ _))]
    rw [ih (fun x hx => hall x (List.mem_cons_of_mem _ hx))]

theorem splitNL_append_newline :
    ∀ (xs : List Char), (∀ c ∈ xs, ¬ (c = '\n')) → ∀ rest : List Char,
      splitNL (xs ++ '\n' :: rest) = xs :: splitNL rest := by
  intro xs
  induction xs with
  | nil => intro _ rest; simp [splitNL]
  | cons c t ih =>
    intro hall rest
    rw [List.cons_append, splitNL, if_neg (hall c (List.mem_cons_self _ _))]
    rw [ih (fun x hx => hall x (List.mem_cons_of_mem _ hx))]

theorem simpleName_no_newline {n : List Char} (h : simpleNameB n = true) :
    ∀ c ∈ n, ¬ (c = '\n') := by
  intro c hc heq
  have := simpleNameB_mem h c hc
  subst heq
  simp [simpleChar, pyIsSpace] at this

theorem processAux_skip_blank {total k : Nat} {rest : List (List Char)} :
    processAux total ([] :: rest) k [] none = processAux total rest (k + 1) [] none := by
  simp [processAux, pyRstrip]

theorem processAux_emit {total k : Nat} {l : List Char} {rest : List (List Char)}
    (h1 : pyRstrip l = l) (h2 : ¬ (l = []))
    (h3 : startsWithHash (pyLstrip l) = false)
    (h4 : endsWithBackslash l = false) (h5 : pyStrip l = l) :
    processAux total (l :: rest) k [] none =
      (k, l) :: processAux total rest (k + 1) [] none := by
  simp only [processAux, h1]
  rw [if_neg (by simp [h2, h3]), if_neg (by simp [h4])]
  simp only [List.nil_append, h5]
  rw [if_pos (by simp [h2])]
  simp

/-- The plain-text facts about the logical line `AGENT <n>`. -/
theorem agent_line_facts {n : List Char} (h : simpleNameB n = true) :
    pyRstrip ("AGENT ".data ++ n) = "AGENT ".data ++ n ∧
    ¬ ("AGENT ".data ++ n = []) ∧
    startsWithHash (pyLstrip ("AGENT ".data ++ n)) = false ∧
    endsWithBackslash ("AGENT ".data ++ n) = false ∧
    pyStrip ("AGENT ".data ++ n) = "AGENT ".data ++ n := by
  have hcons : "AGENT ".data ++ n = 'A' :: ("GENT ".data ++ n) := rfl
  have hl : pyLstrip ("AGENT ".data ++ n) = "AGENT ".data ++ n := by
    rw [hcons]
    unfold pyLstrip
    rw [List.dropWhile_cons, if_neg (by decide)]
  refine ⟨pyRstrip_append_simple h _, ?_, ?_, endsWithBackslash_append_simple h _, ?_⟩
  · rw [hcons]; simp
  · rw [hl, hcons]; rfl
  · unfold pyStrip
    rw [hl, pyRstrip_append_simple h _]

theorem parseLine_agent (env : Env) (st : PState) {n : List Char}
    (h : simpleNameB n = true) :
    parseLine env st ("AGENT ".data ++ n) =
      .ok { config := { st.config with
              agents := alInsert st.config.agents (String.mk n)
                          { name := String.mk n } },
            current_context := some .agent,
            current_item := some (String.mk n) } := by
  unfold parseLine
  rw [split_line_agent h]
  show handleAgent st ["AGENT".data, n] = _
  unfold handleAgent
  have hu : unquoteStr n = String.mk n := by
    unfold unquoteStr; rw [unquote_simple h]
  simp only [hu]

/-- Equality of two configurations on every field except
`dockerfile_instructions`. -/
def eqExceptDockerfileInstructions (a b : AgentfileConfig) : Prop :=
  a.base_image = b.base_image ∧ a.default_model = b.default_model ∧
  a.framework = b.framework ∧ a.servers = b.servers ∧ a.agents = b.agents ∧
  a.routers = b.routers ∧ a.chains = b.chains ∧
  a.orchestrators = b.orchestrators ∧ a.secrets = b.secrets ∧
  a.expose_ports = b.expose_ports ∧ a.cmd = b.cmd

theorem splitNL_serialized_agent {n : List Char} (h : simpleNameB n = true) :
    splitNL ((config_to_dockerfile_content
        { agents := [(String.mk n, { name := String.mk n })] }).data) =
      ["FROM yeahdongcn/agentman-base:latest".data, [], "AGENT ".data ++ n,
       [], []] := by
  have hnlF : ∀ c ∈ "FROM yeahdongcn/agentman-base:latest".data, ¬ (c = '\n') := by
    decide
  have hnlA : ∀ c ∈ "AGENT ".data ++ n, ¬ (c = '\n') := by
    intro c hc
    rcases List.mem_append.mp hc with h1 | h1
    · exact (by decide : ∀ x ∈ "AGENT ".data, ¬ (x = '\n')) c h1
    · exact simpleName_no_newline h c h1
  have hlines2 : buildDockerfileLines
      { agents := [(String.mk n, { name := String.mk n })] } =
      ["FROM yeahdongcn/agentman-base:latest", "", "AGENT " ++ String.mk n, ""] := rfl
  have hdata : (config_to_dockerfile_content
      { agents := [(String.mk n, { name := String.mk n })] }).data =
      "FROM yeahdongcn/agentman-base:latest".data ++
        '\n' :: '\n' :: (("AGENT ".data ++ n) ++ '\n' :: ['\n']) := by
    unfold config_to_dockerfile_content
    rw [hlines2]
    show ("FROM yeahdongcn/agentman-base:latest".data ++
        '\n' :: ([] ++ '\n' :: (("AGENT " ++ String.mk n).data ++ '\n' :: []))) ++
        ['\n'] = _
    rw [String.data_append]
    simp [List.append_assoc]
  rw [hdata, splitNL_append_newline _ hnlF, splitNL, if_pos rfl,
    splitNL_append_newline _ hnlA]
  rfl

/-- C1 amended: for any simple (unquoted single-token) agent name, the
round trip through the Dockerfile serializer reproduces the parsed
configuration on every field except `dockerfile_instructions`, which
gains the synthesized FROM line (and in general duplicates EXPOSE lines,
see the counterexample). -/
theorem dockerfile_roundtrip_modulo_instructions (env : Env) (n : List Char)
    (h : simpleNameB n = true) :
    parseContent env ("AGENT " ++ String.mk n) =
      .ok { agents := [(String.mk n, { name := String.mk n })] } ∧
    parseContent env (config_to_dockerfile_content
        { agents := [(String.mk n, { name := String.mk n })] }) =
      .ok { agents := [(String.mk n, { name := String.mk n })],
            dockerfile_instructions :=
              [{ instruction := "FROM",
                 args := ["yeahdongcn/agentman-base:latest"] }] } ∧
    eqExceptDockerfileInstructions
      { agents := [(String.mk n, { name := String.mk n })] }
      { agents := [(String.mk n, { name := String.mk n })],
        dockerfile_instructions :=
          [{ instruction := "FROM",
             args := ["yeahdongcn/agentman-base:latest"] }] } := by
  obtain ⟨f1, f2, f3, f4, f5⟩ := agent_line_facts h
  refine ⟨?_, ?_, ?_⟩
  · -- parse of the original text
    unfold parseContent parseContentSt
    have hp1 : processedLines ("AGENT " ++ String.mk n) =
        [(1, "AGENT ".data ++ n)] := by
      unfold processedLines
      have hd : ("AGENT " ++ String.mk n).data = "AGENT ".data ++ n := by
        rw [String.data_append]
      rw [hd]
      rw [splitNL_no_newline _ (by
        intro c hc
        rcases List.mem_append.mp hc with h1 | h1
        · exact (by decide : ∀ x ∈ "AGENT ".data, ¬ (x = '\n')) c h1
        · exact simpleName_no_newline h c h1)]
      rw [processAux_emit f1 f2 f3 f4 f5]
      rfl
    rw [hp1]
    simp only [List.foldlM_cons, List.foldlM_nil]
    unfold parseLineNumbered
    rw [parseLine_agent env {} h]
    rfl
  · -- parse of the serialized configuration
    unfold parseContent parseContentSt
    have hp2 : processedLines (config_to_dockerfile_content
        { agents := [(String.mk n, { name := String.mk n })] }) =
        [(1, "FROM yeahdongcn/agentman-base:latest".data),
         (3, "AGENT ".data ++ n)] := by
      unfold processedLines
      rw [splitNL_serialized_agent h]
      rw [processAux_emit (by rfl) (by decide) (by rfl) (by rfl) (by rfl)]
      rw [processAux_skip_blank]
      rw [processAux_emit f1 f2 f3 f4 f5]
      rw [processAux_skip_blank, processAux_skip_blank]
      rfl
    rw [hp2]
    simp only [List.foldlM_cons, List.foldlM_nil]
    unfold parseLineNumbered
    have hF : parseLine env {} "FROM yeahdongcn/agentman-base:latest".data =
        .ok { config := { base_image := "yeahdongcn/agentman-base:latest",
                          dockerfile_instructions :=
                            [{ instruction := "FROM",
                               args := ["yeahdongcn/agentman-base:latest"] }] },
              current_context := none, current_item := none } := rfl
    rw [hF]
    show (parseLineNumbered env _ _ >>= fun a => pure a).map (·.config) = _
    unfold parseLineNumbered
    rw [parseLine_agent env _ h]
    rfl
  · exact ⟨rfl, rfl, rfl, rfl, rfl, rfl, rfl, rfl, rfl, rfl, rfl⟩

/-- C1 amended, witness: the round-trip facts at the concrete name `a`. -/
theorem dockerfile_roundtrip_modulo_instructions_witness :
    parseContent envNone ("AGENT " ++ String.mk ['a']) =
      .ok { agents := [("a", { name := "a" })] } :=
  (dockerfile_roundtrip_modulo_instructions envNone ['a'] (by decide)).1

/-- C1 counterexample: for the input `EXPOSE 8080`, re-parsing the
serialized configuration does not reproduce the original parse: the
`dockerfile_instructions` differ (the serializer synthesizes a FROM line
and emits EXPOSE twice). -/
theorem dockerfile_roundtrip_not_idempotent :
    ((parseContent envNone "EXPOSE 8080").bind
        (fun c => parseContent envNone (config_to_dockerfile_content c))).map
      (·.dockerfile_instructions) ≠
    (parseContent envNone "EXPOSE 8080").map (·.dockerfile_instructions) := by
  decide

end Agentman
